import Mathlib

/-!
Verification development for the microvi modal text editor.

This file shallowly embeds the editor's core subsystems — the command /
keybinding registry (`src/core/Registry.cpp`), the line buffer
(`src/core/Buffer.cpp`), the editing state (`src/core/EditorState.cpp` and
its header `include/core/EditorState.hpp`), and the modal editing engine
(`src/core/ModeController.cpp`) — as executable Lean definitions, and proves
properties of the embedded code.

Modelling conventions:
* C++ `std::unordered_map` fields become association lists with unique keys
  (`alook` / `aset` / `adel`); map iteration order is never observed by the
  embedded code paths.
* `std::function` command callbacks are defunctionalised: a registry entry
  stores an `Option Nat` callback identifier, and the mode-controller
  dynamics take an interpretation function mapping identifiers to state
  transformers.  Registry subscribers are modelled by returning the list of
  `RegistryEvent`s a call would deliver.
* `std::string` text is modelled as `List Char` where the code indexes and
  splices it (buffer lines, pending command), and as `String` where only
  equality, concatenation and formatting occur (ids, gestures, messages).
* Machine integers: `std::size_t` counters become `Nat`; the C++ `int`
  priority becomes `Int`.  The code saturates counts at 1,000,000 before any
  arithmetic can overflow, and the embedded claims never reach `int`
  overflow, so no modular reduction is needed.
-/

namespace Microvi

/-- C locale `isspace` over ASCII, as used by `<cctype>` in the source. -/
def cIsSpace (c : Char) : Bool :=
  c = ' ' || c = '\t' || c = '\n' || c = '\x0b' || c = '\x0c' || c = '\r'

/-- C locale `isdigit`. -/
def cIsDigit (c : Char) : Bool := '0' ≤ c && c ≤ '9'

/-- C locale `isalnum` over ASCII. -/
def cIsAlnum (c : Char) : Bool :=
  ('0' ≤ c && c ≤ '9') || ('a' ≤ c && c ≤ 'z') || ('A' ≤ c && c ≤ 'Z')

/-- C locale `isprint` over ASCII. -/
def cIsPrint (c : Char) : Bool := '\x20' ≤ c && c ≤ '\x7e'

/-! ## Association-list primitives standing in for `std::unordered_map` -/

/-- Lookup in an association list (`map.find`). -/
def alook {κ β : Type} [DecidableEq κ] (k : κ) : List (κ × β) → Option β
  | [] => none
  | (k', v) :: rest => if k' = k then some v else alook k rest

/-- Insert-or-assign (`map[k] = v` / `map.emplace` on a fresh key). -/
def aset {κ β : Type} [DecidableEq κ] (k : κ) (v : β) : List (κ × β) → List (κ × β)
  | [] => [(k, v)]
  | (k', v') :: rest => if k' = k then (k', v) :: rest else (k', v') :: aset k v rest

/-- Erase by key (`map.erase(k)`); a no-op when the key is absent. -/
def adel {κ β : Type} [DecidableEq κ] (k : κ) : List (κ × β) → List (κ × β)
  | [] => []
  | (k', v') :: rest => if k' = k then adel k rest else (k', v') :: adel k rest

/-! ## Registry data model (`include/core/Registry.hpp`) -/

inductive RegistryResourceKind where
  | kCommand | kKeybinding | kTheme | kFiletype | kPlugin | kOption
  deriving DecidableEq, Repr, Inhabited

inductive RegistryOriginKind where
  | kCore | kNative | kPlugin | kUser
  deriving DecidableEq, Repr, Inhabited

inductive RegistrationLifetime where
  | kStatic | kSession
  deriving DecidableEq, Repr, Inhabited

inductive RegistrationStatus where
  | kApplied | kShadowed | kRejected
  deriving DecidableEq, Repr, Inhabited

inductive UndoScope where
  | kNone | kLine | kBuffer
  deriving DecidableEq, Repr, Inhabited

inductive CommandParameterKind where
  | kString | kInteger | kNumber | kBoolean | kArray | kObject
  deriving DecidableEq, Repr, Inhabited

/-- Editor mode (`include/core/Mode.hpp`). -/
inductive Mode where
  | kNormal | kInsert | kCommandLine | kVisual
  deriving DecidableEq, Repr, Inhabited

inductive KeybindingMode where
  | kNormal | kInsert | kCommand | kVisual | kAny
  deriving DecidableEq, Repr, Inhabited

structure Origin where
  kind : RegistryOriginKind := .kCore
  name : String := ""
  deriving DecidableEq, Repr, Inhabited

structure CommandParameter where
  name : String := ""
  kind : CommandParameterKind := .kString
  required : Bool := false
  defaultValue : String := ""
  deriving DecidableEq, Repr, Inhabited

structure CommandDescriptor where
  id : String := ""
  label : String := ""
  shortDescription : String := ""
  docUrl : String := ""
  modes : List Mode := []
  parameters : List CommandParameter := []
  capabilities : Nat := 0
  undoScope : UndoScope := .kNone
  deriving DecidableEq, Repr, Inhabited

/-- `CommandCallable`: the `std::function` native callback is defunctionalised
to an `Option Nat` identifier interpreted by the mode-controller dynamics. -/
structure CommandCallable where
  nativeCallback : Option Nat := none
  rpcEndpoint : String := ""
  deriving DecidableEq, Repr, Inhabited

def CommandCallable.isValidCallable (c : CommandCallable) : Bool :=
  c.nativeCallback.isSome || c.rpcEndpoint ≠ ""

structure CommandRegistration where
  descriptor : CommandDescriptor := {}
  callable : CommandCallable := {}
  priority : Int := 0
  lifetime : RegistrationLifetime := .kStatic
  deriving DecidableEq, Repr, Inhabited

/-- `Registry::CommandEntry` (the private active/shadow record). -/
structure CommandEntry where
  descriptor : CommandDescriptor := {}
  callable : CommandCallable := {}
  origin : Origin := {}
  priority : Int := 0
  lifetime : RegistrationLifetime := .kStatic
  token : Nat := 0
  sequence : Nat := 0
  deriving DecidableEq, Repr, Inhabited

/-- `KeybindingDescriptor`; the `arguments` map becomes an association list. -/
structure KeybindingDescriptor where
  id : String := ""
  commandId : String := ""
  mode : KeybindingMode := .kAny
  gesture : String := ""
  whenClause : String := ""
  arguments : List (String × String) := []
  deriving DecidableEq, Repr, Inhabited

structure KeybindingRegistration where
  descriptor : KeybindingDescriptor := {}
  priority : Int := 0
  lifetime : RegistrationLifetime := .kStatic
  deriving DecidableEq, Repr, Inhabited

/-- `Registry::KeybindingEntry`. -/
structure KeybindingEntry where
  descriptor : KeybindingDescriptor := {}
  origin : Origin := {}
  priority : Int := 0
  lifetime : RegistrationLifetime := .kStatic
  token : Nat := 0
  sequence : Nat := 0
  bindingKey : String := ""
  deriving DecidableEq, Repr, Inhabited

structure RegistrationHandle where
  resource : RegistryResourceKind := .kCommand
  id : String := ""
  token : Nat := 0
  deriving DecidableEq, Repr, Inhabited

def RegistrationHandle.isValidHandle (h : RegistrationHandle) : Bool :=
  h.token ≠ 0

structure ConflictRecord where
  resource : RegistryResourceKind := .kCommand
  id : String := ""
  winnerOrigin : Origin := {}
  loserOrigin : Origin := {}
  message : String := ""
  deriving DecidableEq, Repr, Inhabited

structure RegistrationResult where
  status : RegistrationStatus := .kRejected
  handle : RegistrationHandle := {}
  conflict : Option ConflictRecord := none
  deriving DecidableEq, Repr, Inhabited

structure RegistryEvent where
  resource : RegistryResourceKind := .kCommand
  id : String := ""
  status : RegistrationStatus := .kApplied
  deriving DecidableEq, Repr, Inhabited

/-- The registry's mutable storage (`Registry`'s private fields).  Subscriber
callbacks are modelled by the event lists the operations return. -/
structure RegState where
  commands : List (String × CommandEntry) := []
  commandShadow : List (String × List CommandEntry) := []
  keybindingsById : List (String × KeybindingEntry) := []
  keybindingActiveKeyToId : List (String × String) := []
  keybindingShadow : List (String × List KeybindingEntry) := []
  keybindingTokenToKey : List (Nat × String) := []
  conflicts : List ConflictRecord := []
  version : Nat := 1
  nextToken : Nat := 1
  nextSequence : Nat := 1
  deriving DecidableEq, Repr, Inhabited

/-- `Registry::PrecedenceRank`. -/
def precedenceRank (o : Origin) : Nat :=
  match o.kind with
  | .kCore => 0
  | .kNative => 1
  | .kPlugin => 2
  | .kUser => 3

/-- `Registry::ComposeBindingKey`: the decimal rendering of the mode's
underlying value (`"0"`..`"4"`, constant-folded from
`std::to_string(static_cast<int>(mode))`), a colon, then the gesture. -/
def composeBindingKey (mode : KeybindingMode) (gesture : String) : String :=
  (match mode with
    | .kNormal => "0" | .kInsert => "1" | .kCommand => "2"
    | .kVisual => "3" | .kAny => "4") ++ ":" ++ gesture

/-- `Registry::CommandDescriptorsCompatible`. -/
def commandDescriptorsCompatible (a b : CommandDescriptor) : Bool :=
  decide (a.modes = b.modes) && decide (a.parameters = b.parameters) &&
    decide (a.undoScope = b.undoScope)

/-- Helper building a `ConflictRecord` (each resolution path fills the same
five fields). -/
def mkConflict (resource : RegistryResourceKind) (id : String)
    (winner loser : Origin) (message : String) : ConflictRecord :=
  { resource := resource, id := id, winnerOrigin := winner,
    loserOrigin := loser, message := message }

inductive ResolutionDecision where
  | kReplaceExisting | kShadowIncoming | kRejectIncoming
  deriving DecidableEq, Repr, Inhabited

structure CommandResolution where
  decision : ResolutionDecision := .kShadowIncoming
  conflict : Option ConflictRecord := none
  deriving DecidableEq, Repr, Inhabited

/-- `Registry::ResolveCommandConflict`. -/
def resolveCommandConflict (existing incoming : CommandEntry) : CommandResolution :=
  let existingRank := precedenceRank existing.origin
  let incomingRank := precedenceRank incoming.origin
  if incomingRank > existingRank then
    { decision := .kReplaceExisting,
      conflict := some (mkConflict .kCommand incoming.descriptor.id incoming.origin existing.origin
        "Replaced command due to higher precedence or priority") }
  else if incomingRank < existingRank then
    { decision := .kShadowIncoming,
      conflict := some (mkConflict .kCommand incoming.descriptor.id existing.origin incoming.origin
        "Command shadowed by higher precedence or priority") }
  else if incoming.priority > existing.priority then
    { decision := .kReplaceExisting,
      conflict := some (mkConflict .kCommand incoming.descriptor.id incoming.origin existing.origin
        "Replaced command due to higher precedence or priority") }
  else if incoming.priority < existing.priority then
    { decision := .kShadowIncoming,
      conflict := some (mkConflict .kCommand incoming.descriptor.id existing.origin incoming.origin
        "Command shadowed by higher precedence or priority") }
  else if commandDescriptorsCompatible existing.descriptor incoming.descriptor then
    { decision := .kShadowIncoming,
      conflict := some (mkConflict .kCommand incoming.descriptor.id existing.origin incoming.origin
        "Duplicate command ignored (same precedence and priority)") }
  else
    { decision := .kRejectIncoming,
      conflict := some (mkConflict .kCommand incoming.descriptor.id existing.origin incoming.origin
        "Command signature conflict with identical precedence and priority") }

structure KeybindingResolution where
  decision : ResolutionDecision := .kShadowIncoming
  conflict : Option ConflictRecord := none
  deriving DecidableEq, Repr, Inhabited

/-- `Registry::ResolveKeybindingConflict`. -/
def resolveKeybindingConflict (existing incoming : KeybindingEntry) : KeybindingResolution :=
  let existingRank := precedenceRank existing.origin
  let incomingRank := precedenceRank incoming.origin
  if incomingRank > existingRank then
    { decision := .kReplaceExisting,
      conflict := some (mkConflict .kKeybinding incoming.descriptor.id incoming.origin existing.origin
        "Replaced keybinding due to higher precedence or priority") }
  else if incomingRank < existingRank then
    { decision := .kShadowIncoming,
      conflict := some (mkConflict .kKeybinding incoming.descriptor.id existing.origin incoming.origin
        "Keybinding shadowed by higher precedence or priority") }
  else if incoming.priority > existing.priority then
    { decision := .kReplaceExisting,
      conflict := some (mkConflict .kKeybinding incoming.descriptor.id incoming.origin existing.origin
        "Replaced keybinding due to higher precedence or priority") }
  else if incoming.priority < existing.priority then
    { decision := .kShadowIncoming,
      conflict := some (mkConflict .kKeybinding incoming.descriptor.id existing.origin incoming.origin
        "Keybinding shadowed by higher precedence or priority") }
  else if incoming.descriptor = existing.descriptor then
    { decision := .kShadowIncoming,
      conflict := some (mkConflict .kKeybinding incoming.descriptor.id existing.origin incoming.origin
        "Duplicate keybinding ignored (same precedence and priority)") }
  else
    { decision := .kRejectIncoming,
      conflict := some (mkConflict .kKeybinding incoming.descriptor.id existing.origin incoming.origin
        "Conflicting keybinding with identical precedence and priority") }

/-- `Registry::RegisterCommand`.  Returns the result, the events delivered to
subscribers, and the successor state. -/
def registerCommand (reg : RegState) (registration : CommandRegistration)
    (origin : Origin) : RegistrationResult × List RegistryEvent × RegState :=
  if registration.descriptor.id = "" then
    let conflict := mkConflict .kCommand "" origin origin
      "Command id must not be empty"
    ({ status := .kRejected, conflict := some conflict }, [],
      { reg with conflicts := reg.conflicts ++ [conflict] })
  else if ¬ registration.callable.isValidCallable then
    let conflict := mkConflict .kCommand registration.descriptor.id origin origin
      "Command callable must provide native callback or RPC endpoint"
    ({ status := .kRejected, conflict := some conflict }, [],
      { reg with conflicts := reg.conflicts ++ [conflict] })
  else
    let incoming : CommandEntry :=
      { descriptor := registration.descriptor,
        callable := registration.callable, origin := origin,
        priority := registration.priority, lifetime := registration.lifetime,
        token := reg.nextToken, sequence := reg.nextSequence }
    let reg1 :=
      { reg with nextToken := reg.nextToken + 1,
                 nextSequence := reg.nextSequence + 1 }
    match alook incoming.descriptor.id reg1.commands with
    | none =>
      ({ status := .kApplied,
         handle := { resource := .kCommand, id := incoming.descriptor.id,
                     token := incoming.token } },
       [{ resource := .kCommand, id := incoming.descriptor.id, status := .kApplied }],
       { reg1 with commands := aset incoming.descriptor.id incoming reg1.commands,
                   version := reg1.version + 1 })
    | some existingEntry =>
      let resolution := resolveCommandConflict existingEntry incoming
      let reg2 := match resolution.conflict with
        | some c => { reg1 with conflicts := reg1.conflicts ++ [c] }
        | none => reg1
      match resolution.decision with
      | .kReplaceExisting =>
        ({ status := .kApplied,
           handle := { resource := .kCommand, id := incoming.descriptor.id,
                       token := incoming.token },
           conflict := resolution.conflict },
         [{ resource := .kCommand, id := existingEntry.descriptor.id,
            status := .kShadowed },
          { resource := .kCommand, id := incoming.descriptor.id,
            status := .kApplied }],
         { reg2 with
             commandShadow := aset incoming.descriptor.id
               ((alook incoming.descriptor.id reg2.commandShadow).getD [] ++
                 [existingEntry]) reg2.commandShadow,
             commands := aset incoming.descriptor.id incoming reg2.commands,
             version := reg2.version + 1 })
      | .kShadowIncoming =>
        ({ status := .kShadowed,
           handle := { resource := .kCommand, id := incoming.descriptor.id,
                       token := incoming.token },
           conflict := resolution.conflict },
         [{ resource := .kCommand, id := incoming.descriptor.id,
            status := .kShadowed }],
         { reg2 with
             commandShadow := aset incoming.descriptor.id
               ((alook incoming.descriptor.id reg2.commandShadow).getD [] ++
                 [incoming]) reg2.commandShadow,
             version := reg2.version + 1 })
      | .kRejectIncoming =>
        ({ status := .kRejected, conflict := resolution.conflict }, [], reg2)

/-- `Registry::RegisterKeybinding`. -/
def registerKeybinding (reg : RegState) (registration : KeybindingRegistration)
    (origin : Origin) : RegistrationResult × List RegistryEvent × RegState :=
  let descriptor := registration.descriptor
  if descriptor.id = "" then
    let conflict := mkConflict .kKeybinding "" origin origin
      "Keybinding id must not be empty"
    ({ status := .kRejected, conflict := some conflict }, [],
      { reg with conflicts := reg.conflicts ++ [conflict] })
  else if descriptor.gesture = "" then
    let conflict := mkConflict .kKeybinding descriptor.id origin origin
      "Keybinding gesture must not be empty"
    ({ status := .kRejected, conflict := some conflict }, [],
      { reg with conflicts := reg.conflicts ++ [conflict] })
  else
    match alook descriptor.id reg.keybindingsById with
    | some occupantEntry =>
      let conflict := mkConflict .kKeybinding descriptor.id occupantEntry.origin
        origin "Keybinding id already registered"
      ({ status := .kRejected, conflict := some conflict }, [],
        { reg with conflicts := reg.conflicts ++ [conflict] })
    | none =>
      let incoming : KeybindingEntry :=
        { descriptor := descriptor, origin := origin,
          priority := registration.priority, lifetime := registration.lifetime,
          token := reg.nextToken, sequence := reg.nextSequence,
          bindingKey := composeBindingKey descriptor.mode descriptor.gesture }
      let reg1 :=
        { reg with nextToken := reg.nextToken + 1,
                   nextSequence := reg.nextSequence + 1,
                   keybindingTokenToKey := aset incoming.token
                     incoming.bindingKey reg.keybindingTokenToKey }
      match alook incoming.bindingKey reg1.keybindingActiveKeyToId with
      | none =>
        ({ status := .kApplied,
           handle := { resource := .kKeybinding, id := incoming.descriptor.id,
                       token := incoming.token } },
         [{ resource := .kKeybinding, id := incoming.descriptor.id,
            status := .kApplied }],
         { reg1 with
             keybindingsById :=
               aset incoming.descriptor.id incoming reg1.keybindingsById,
             keybindingActiveKeyToId := aset incoming.bindingKey
               incoming.descriptor.id reg1.keybindingActiveKeyToId,
             version := reg1.version + 1 })
      | some occupantId =>
        let existingEntry := (alook occupantId reg1.keybindingsById).getD {}
        let resolution := resolveKeybindingConflict existingEntry incoming
        let reg2 := match resolution.conflict with
          | some c => { reg1 with conflicts := reg1.conflicts ++ [c] }
          | none => reg1
        match resolution.decision with
        | .kReplaceExisting =>
          ({ status := .kApplied,
             handle := { resource := .kKeybinding, id := incoming.descriptor.id,
                         token := incoming.token },
             conflict := resolution.conflict },
           [{ resource := .kKeybinding, id := existingEntry.descriptor.id,
              status := .kShadowed },
            { resource := .kKeybinding, id := incoming.descriptor.id,
              status := .kApplied }],
           { reg2 with
               keybindingShadow := aset incoming.bindingKey
                 ((alook incoming.bindingKey reg2.keybindingShadow).getD [] ++
                   [existingEntry]) reg2.keybindingShadow,
               keybindingsById := aset incoming.descriptor.id incoming
                 (adel occupantId reg2.keybindingsById),
               keybindingActiveKeyToId := aset incoming.bindingKey
                 incoming.descriptor.id reg2.keybindingActiveKeyToId,
               version := reg2.version + 1 })
        | .kShadowIncoming =>
          ({ status := .kShadowed,
             handle := { resource := .kKeybinding, id := incoming.descriptor.id,
                         token := incoming.token },
             conflict := resolution.conflict },
           [{ resource := .kKeybinding, id := incoming.descriptor.id,
              status := .kShadowed }],
           { reg2 with
               keybindingShadow := aset incoming.bindingKey
                 ((alook incoming.bindingKey reg2.keybindingShadow).getD [] ++
                   [incoming]) reg2.keybindingShadow,
               version := reg2.version + 1 })
        | .kRejectIncoming =>
          ({ status := .kRejected, conflict := resolution.conflict }, [],
           { reg2 with
               keybindingTokenToKey := adel incoming.token reg2.keybindingTokenToKey })

/-! ## Shadow promotion and unregistration (`src/core/Registry.cpp`) -/

/-- The `prefer` lambda in `Registry::PromoteCommandShadow`: higher precedence
rank first, then higher priority, then earlier sequence number. -/
def preferCommandEntry (lhs rhs : CommandEntry) : Bool :=
  if precedenceRank lhs.origin ≠ precedenceRank rhs.origin then
    precedenceRank lhs.origin > precedenceRank rhs.origin
  else if lhs.priority ≠ rhs.priority then lhs.priority > rhs.priority
  else lhs.sequence < rhs.sequence

/-- The `prefer` lambda in `Registry::PromoteKeybindingShadow`. -/
def preferKeybindingEntry (lhs rhs : KeybindingEntry) : Bool :=
  if precedenceRank lhs.origin ≠ precedenceRank rhs.origin then
    precedenceRank lhs.origin > precedenceRank rhs.origin
  else if lhs.priority ≠ rhs.priority then lhs.priority > rhs.priority
  else lhs.sequence < rhs.sequence

/-- The scan of `std::max_element(first, last, fun l r => ¬ prefer l r)`:
walk the remaining elements, replacing the current best index/value whenever
the current best is not preferred over the element examined. -/
def bestScan {α : Type} (prefer : α → α → Bool) :
    List α → Nat → α → Nat → Nat × α
  | [], _, bVal, bIdx => (bIdx, bVal)
  | x :: xs, cur, bVal, bIdx =>
    if prefer bVal x then bestScan prefer xs (cur + 1) bVal bIdx
    else bestScan prefer xs (cur + 1) x cur

/-- Index and value selected by `std::max_element` over a nonempty list with
comparator `fun l r => ¬ prefer l r` (as in both promotion routines). -/
def bestOf {α : Type} (prefer : α → α → Bool) (x : α) (xs : List α) : Nat × α :=
  bestScan prefer xs 1 x 0

/-- `Registry::PromoteCommandShadow`. -/
def promoteCommandShadow (id : String) (reg : RegState) : RegState :=
  match alook id reg.commandShadow with
  | none => { reg with commandShadow := adel id reg.commandShadow }
  | some [] => { reg with commandShadow := adel id reg.commandShadow }
  | some (x :: xs) =>
    let best := bestOf preferCommandEntry x xs
    let rest := (x :: xs).eraseIdx best.1
    { reg with
        commands := aset id best.2 reg.commands,
        version := reg.version + 1,
        commandShadow := if rest = [] then adel id reg.commandShadow
          else aset id rest reg.commandShadow }

/-- `Registry::PromoteKeybindingShadow`. -/
def promoteKeybindingShadow (bindingKey : String) (reg : RegState) : RegState :=
  match alook bindingKey reg.keybindingShadow with
  | none => { reg with keybindingShadow := adel bindingKey reg.keybindingShadow }
  | some [] => { reg with keybindingShadow := adel bindingKey reg.keybindingShadow }
  | some (x :: xs) =>
    let best := bestOf preferKeybindingEntry x xs
    let rest := (x :: xs).eraseIdx best.1
    { reg with
        keybindingsById := aset best.2.descriptor.id best.2 reg.keybindingsById,
        keybindingActiveKeyToId :=
          aset bindingKey best.2.descriptor.id reg.keybindingActiveKeyToId,
        keybindingTokenToKey := aset best.2.token bindingKey reg.keybindingTokenToKey,
        version := reg.version + 1,
        keybindingShadow := if rest = [] then adel bindingKey reg.keybindingShadow
          else aset bindingKey rest reg.keybindingShadow }

/-- The command-shadow branch of `Registry::Unregister`: `std::remove_if` by
token followed by `erase`, dropping the map key when the list empties. -/
def unregisterCommandShadow (reg : RegState) (h : RegistrationHandle) :
    Bool × List RegistryEvent × RegState :=
  match alook h.id reg.commandShadow with
  | none => (false, [], reg)
  | some list =>
    let kept := list.filter (fun entry => entry.token ≠ h.token)
    if kept.length = list.length then (false, [], reg)
    else
      (true, [],
       { reg with
           commandShadow := if kept = [] then adel h.id reg.commandShadow
             else aset h.id kept reg.commandShadow,
           version := reg.version + 1 })

/-- The keybinding-shadow branch of `Registry::Unregister`: locate the binding
key through `keybinding_token_to_key_`, then remove by token. -/
def unregisterKeybindingShadow (reg : RegState) (h : RegistrationHandle) :
    Bool × List RegistryEvent × RegState :=
  match alook h.token reg.keybindingTokenToKey with
  | none => (false, [], reg)
  | some key =>
    match alook key reg.keybindingShadow with
    | none => (false, [], reg)
    | some list =>
      let kept := list.filter (fun entry => entry.token ≠ h.token)
      if kept.length = list.length then (false, [], reg)
      else
        (true, [],
         { reg with
             keybindingShadow := if kept = [] then adel key reg.keybindingShadow
               else aset key kept reg.keybindingShadow,
             keybindingTokenToKey := adel h.token reg.keybindingTokenToKey,
             version := reg.version + 1 })

/-- `Registry::Unregister`. -/
def unregisterReg (reg : RegState) (h : RegistrationHandle) :
    Bool × List RegistryEvent × RegState :=
  if ¬ h.isValidHandle then (false, [], reg)
  else
    match h.resource with
    | .kCommand =>
      (match alook h.id reg.commands with
       | some entry =>
         if entry.token = h.token then
           let reg1 := promoteCommandShadow h.id
             { reg with commands := adel h.id reg.commands }
           (true,
            [{ resource := .kCommand, id := h.id, status := .kRejected }],
            { reg1 with version := reg1.version + 1 })
         else unregisterCommandShadow reg h
       | none => unregisterCommandShadow reg h)
    | .kKeybinding =>
      (match alook h.id reg.keybindingsById with
       | some entry =>
         if entry.token = h.token then
           let bindingKey := entry.bindingKey
           let reg1 := promoteKeybindingShadow bindingKey
             { reg with
                 keybindingsById := adel h.id reg.keybindingsById,
                 keybindingActiveKeyToId := adel bindingKey reg.keybindingActiveKeyToId,
                 keybindingTokenToKey := adel h.token reg.keybindingTokenToKey }
           (true,
            [{ resource := .kKeybinding, id := h.id, status := .kRejected }],
            { reg1 with version := reg1.version + 1 })
         else unregisterKeybindingShadow reg h
       | none => unregisterKeybindingShadow reg h)
    | _ => (false, [], reg)

/-! ## Registry queries -/

/-- `CommandRecord` as surfaced by lookups. -/
structure CommandRecord where
  descriptor : CommandDescriptor := {}
  callable : CommandCallable := {}
  origin : Origin := {}
  priority : Int := 0
  lifetime : RegistrationLifetime := .kStatic
  token : Nat := 0
  sequence : Nat := 0
  status : RegistrationStatus := .kApplied
  deriving DecidableEq, Repr, Inhabited

structure KeybindingRecord where
  descriptor : KeybindingDescriptor := {}
  origin : Origin := {}
  priority : Int := 0
  lifetime : RegistrationLifetime := .kStatic
  token : Nat := 0
  sequence : Nat := 0
  status : RegistrationStatus := .kApplied
  deriving DecidableEq, Repr, Inhabited

/-- `Registry::FindCommand`.  When `includeShadow` is set and the id is not
active, the most recently pushed shadow entry (`back()`) is returned. -/
def findCommand (reg : RegState) (id : String) (includeShadow : Bool) :
    Option CommandRecord :=
  match alook id reg.commands with
  | some entry =>
    some { descriptor := entry.descriptor, callable := entry.callable,
           origin := entry.origin, priority := entry.priority,
           lifetime := entry.lifetime, token := entry.token,
           sequence := entry.sequence, status := .kApplied }
  | none =>
    if ¬ includeShadow then none
    else
      match alook id reg.commandShadow with
      | none => none
      | some [] => none
      | some (x :: xs) =>
        let entry := (x :: xs).getLast (by simp)
        some { descriptor := entry.descriptor, callable := entry.callable,
               origin := entry.origin, priority := entry.priority,
               lifetime := entry.lifetime, token := entry.token,
               sequence := entry.sequence, status := .kShadowed }

/-- `Registry::ResolveKeybinding`: exact composite-key lookup only (the `Any`
fallback lives in the caller, `ModeController::ExecuteRegisteredBinding`). -/
def resolveKeybinding (reg : RegState) (mode : KeybindingMode)
    (gesture : String) : Option KeybindingRecord :=
  match alook (composeBindingKey mode gesture) reg.keybindingActiveKeyToId with
  | none => none
  | some id =>
    match alook id reg.keybindingsById with
    | none => none
    | some entry =>
      some { descriptor := entry.descriptor, origin := entry.origin,
             priority := entry.priority, lifetime := entry.lifetime,
             token := entry.token, sequence := entry.sequence,
             status := .kApplied }

/-! ## Key events and editing state
(`include/core/KeyEvent.hpp`, `include/core/EditorState.hpp`,
`src/core/EditorState.cpp`, `src/core/Buffer.cpp`) -/

inductive KeyCode where
  | kCharacter | kEscape | kEnter | kBackspace
  | kArrowUp | kArrowDown | kArrowLeft | kArrowRight
  deriving DecidableEq, Repr, Inhabited

structure KeyEvent where
  code : KeyCode := .kCharacter
  value : Char := '\x00'
  deriving DecidableEq, Repr, Inhabited

inductive StatusSeverity where
  | kNone | kInfo | kWarning | kError
  deriving DecidableEq, Repr, Inhabited

/-- `Buffer`: ordered line storage plus the dirty flag.  The file path and
file I/O (`LoadFromFile` / `SaveToFile`) are out of the embedded scope. -/
structure BufferState where
  lines : List (List Char) := [[]]
  dirty : Bool := false
  deriving DecidableEq, Repr, Inhabited

def BufferState.lineCount (b : BufferState) : Nat := b.lines.length

/-- `Buffer::GetLine` (const read); the source throws on an out-of-range
index, which the embedded call sites never produce. -/
def BufferState.getLine (b : BufferState) (i : Nat) : List Char :=
  b.lines.getD i []

/-- Direct assignment through the non-const `Buffer::GetLine` reference
(which also marks the buffer dirty). -/
def BufferState.setLine (b : BufferState) (i : Nat) (l : List Char) : BufferState :=
  { b with lines := b.lines.set i l, dirty := true }

/-- `Buffer::InsertChar`. -/
def bufInsertChar (b : BufferState) (line column : Nat) (value : Char) :
    Bool × BufferState :=
  if line ≥ b.lines.length then (false, b)
  else
    let current := b.getLine line
    if column > current.length then (false, b)
    else
      (true, { b with
        lines := b.lines.set line (current.take column ++ value :: current.drop column),
        dirty := true })

/-- `Buffer::DeleteChar` (deletes the character before `column`). -/
def bufDeleteChar (b : BufferState) (line column : Nat) : Bool × BufferState :=
  if line ≥ b.lines.length then (false, b)
  else
    let current := b.getLine line
    if column = 0 ∨ column > current.length then (false, b)
    else
      (true, { b with
        lines := b.lines.set line (current.take (column - 1) ++ current.drop column),
        dirty := true })

/-- `Buffer::InsertLine`. -/
def bufInsertLine (b : BufferState) (lineIndex : Nat) (line : List Char) :
    Bool × BufferState :=
  if lineIndex > b.lines.length then (false, b)
  else
    (true, { b with
      lines := b.lines.take lineIndex ++ line :: b.lines.drop lineIndex,
      dirty := true })

/-- `Buffer::DeleteLine`; restores a single empty line when the storage
would become empty. -/
def bufDeleteLine (b : BufferState) (lineIndex : Nat) : Bool × BufferState :=
  if lineIndex ≥ b.lines.length then (false, b)
  else
    let remaining := b.lines.take lineIndex ++ b.lines.drop (lineIndex + 1)
    (true, { b with
      lines := if remaining = [] then [[]] else remaining,
      dirty := true })

/-- `EditorState`.  The shipped `EditorState.cpp` lags behind its header:
`SetStatus`'s severity parameter, `ClearStatus` and `StatusLevel` are declared
in `include/core/EditorState.hpp` and used throughout `ModeController.cpp`
but missing from the translation unit.  Modelled from the spec: the status
is a message plus a severity; setting stores both, clearing resets both. -/
structure EditorState where
  buffer : BufferState := {}
  cursorLine : Nat := 0
  cursorColumn : Nat := 0
  mode : Mode := .kNormal
  running : Bool := true
  statusMessage : String := ""
  statusSeverity : StatusSeverity := .kNone
  deriving DecidableEq, Repr, Inhabited

/-- `EditorState::ClampCursor`. -/
def edClampCursor (e : EditorState) : EditorState :=
  if e.buffer.lineCount = 0 then { e with cursorLine := 0, cursorColumn := 0 }
  else
    let line := if e.cursorLine ≥ e.buffer.lineCount
      then e.buffer.lineCount - 1 else e.cursorLine
    { e with cursorLine := line,
             cursorColumn := min e.cursorColumn (e.buffer.getLine line).length }

/-- `EditorState::SetCursor`. -/
def edSetCursor (e : EditorState) (line column : Nat) : EditorState :=
  edClampCursor { e with cursorLine := line, cursorColumn := column }

/-- `EditorState::MoveCursorLine`.  The `static_cast<int>` on line indices is
modelled without wraparound; the embedded states stay far below `INT_MAX`. -/
def edMoveCursorLine (e : EditorState) (delta : Int) : EditorState :=
  if e.buffer.lineCount = 0 then { e with cursorLine := 0, cursorColumn := 0 }
  else
    let maxLine : Int := Int.ofNat e.buffer.lineCount - 1
    let target := max 0 (min (Int.ofNat e.cursorLine + delta) maxLine)
    edClampCursor { e with cursorLine := target.toNat }

/-- `EditorState::MoveCursorColumn`. -/
def edMoveCursorColumn (e : EditorState) (delta : Int) : EditorState :=
  let len := (e.buffer.getLine e.cursorLine).length
  let target := max 0 (min (Int.ofNat e.cursorColumn + delta) (Int.ofNat len))
  edClampCursor { e with cursorColumn := target.toNat }

/-- `EditorState::SetStatus` (header signature; see `EditorState` note). -/
def edSetStatus (e : EditorState) (message : String) (severity : StatusSeverity) :
    EditorState :=
  { e with statusMessage := message, statusSeverity := severity }

/-- `EditorState::ClearStatus` (header declaration; see `EditorState` note). -/
def edClearStatus (e : EditorState) : EditorState :=
  { e with statusMessage := "", statusSeverity := .kNone }

/-! ## Text-motion helpers (anonymous namespace, `src/core/ModeController.cpp`) -/

def kMaxCountValue : Nat := 1000000

structure TextPosition where
  line : Nat := 0
  column : Nat := 0
  deriving DecidableEq, Repr, Inhabited

/-- `AppendCountDigit`: decimal shift saturated at 1,000,000. -/
def appendCountDigit (current digit : Nat) : Nat :=
  let next := current * 10 + digit
  if next > kMaxCountValue then kMaxCountValue else next

/-- `FormatPendingStatus`. -/
def formatPendingStatus (pendingCommand : List Char) (prefixCount : Nat)
    (hasPrefixCount : Bool) (motionCount : Nat) (hasMotionCount : Bool) : String :=
  (if hasPrefixCount ∧ prefixCount > 0 then toString prefixCount else "") ++
    String.mk pendingCommand ++
    (if hasMotionCount ∧ motionCount > 0 then toString motionCount else "")

/-- `IsWordChar`: alphanumeric or underscore. -/
def isWordChar (c : Char) : Bool := cIsAlnum c || c = '_'

/-- `IsBlankLine`. -/
def isBlankLine (line : List Char) : Bool := line.all cIsSpace

/-- `ClampPosition`. -/
def clampPosition (b : BufferState) (p : TextPosition) : TextPosition :=
  if b.lineCount = 0 then p
  else
    let line := if p.line ≥ b.lineCount then b.lineCount - 1 else p.line
    let len := (b.getLine line).length
    ⟨line, if p.column > len then len else p.column⟩

/-- The inner segment scan of `NextWordStart` / `WordEndInclusive`: advance
while the character is non-space and (when `checkClass` is set) in the same
word/punctuation class as the segment's first character. -/
def scanSegmentGo (line : List Char) (checkClass initialIsWord : Bool) :
    Nat → Nat → Nat
  | 0, column => column
  | fuel + 1, column =>
    if column < line.length then
      let c := line.getD column ' '
      if cIsSpace c then column
      else if checkClass ∧ isWordChar c ≠ initialIsWord then column
      else scanSegmentGo line checkClass initialIsWord fuel (column + 1)
    else column

def scanSegment (line : List Char) (checkClass initialIsWord : Bool)
    (column : Nat) : Nat :=
  scanSegmentGo line checkClass initialIsWord (line.length + 1) column

/-- Fuel bound ample for every loop that walks the buffer forward once:
total characters plus a step per line plus slack. -/
def bufFuel (b : BufferState) : Nat :=
  b.lines.foldl (fun acc l => acc + l.length + 2) 2

/-- The forward word-walk shared by `NextWordStart` (`bigWord := false`) and
`NextBigWordStart` (`bigWord := true`), written with explicit fuel for the
source's `while` loop; the fuel is always sufficient on the inputs the
embedded claims evaluate. -/
def nextWordStartGo (b : BufferState) (bigWord : Bool) :
    Nat → Nat → Nat → Bool → TextPosition
  | 0, line, column, _ => ⟨line, column⟩
  | fuel + 1, line, column, consumedSegment =>
    if line < b.lineCount then
      let ln := b.getLine line
      if column ≥ ln.length then
        if line + 1 ≥ b.lineCount then ⟨line, ln.length⟩
        else nextWordStartGo b bigWord fuel (line + 1) 0 false
      else
        let c := ln.getD column ' '
        if cIsSpace c then nextWordStartGo b bigWord fuel line (column + 1) false
        else if ¬ consumedSegment then
          nextWordStartGo b bigWord fuel line
            (scanSegment ln (¬ bigWord) (isWordChar c) column) true
        else ⟨line, column⟩
    else ⟨b.lineCount - 1, (b.getLine (b.lineCount - 1)).length⟩

/-- `NextWordStart`. -/
def nextWordStart (b : BufferState) (p : TextPosition) : TextPosition :=
  if b.lineCount = 0 then p
  else
    let p := clampPosition b p
    nextWordStartGo b false (bufFuel b) p.line p.column false

/-- `NextBigWordStart`. -/
def nextBigWordStart (b : BufferState) (p : TextPosition) : TextPosition :=
  if b.lineCount = 0 then p
  else
    let p := clampPosition b p
    nextWordStartGo b true (bufFuel b) p.line p.column false

/-- Backward scan inside `PreviousWordStart`: step left from `column` while
the previous character is non-space and (for the small-word variant) in the
same class. -/
def backSegmentGo (line : List Char) (checkClass currentIsWord : Bool) :
    Nat → Nat
  | 0 => 0
  | column + 1 =>
    let prev := line.getD column ' '
    if cIsSpace prev then column + 1
    else if checkClass ∧ isWordChar prev ≠ currentIsWord then column + 1
    else backSegmentGo line checkClass currentIsWord column

/-- The backward word-walk shared by `PreviousWordStart` and
`PreviousBigWordStart` (after the initial one-step retreat). -/
def prevWordStartGo (b : BufferState) (bigWord : Bool) :
    Nat → Nat → Nat → TextPosition
  | 0, line, column => ⟨line, column⟩
  | fuel + 1, line, column =>
    let ln := b.getLine line
    if ln.length = 0 then
      if line = 0 then ⟨0, 0⟩
      else prevWordStartGo b bigWord fuel (line - 1)
        (b.getLine (line - 1)).length
    else
      let column := if column ≥ ln.length then ln.length - 1 else column
      let c := ln.getD column ' '
      if cIsSpace c then
        if column = 0 then
          if line = 0 then ⟨0, 0⟩
          else prevWordStartGo b bigWord fuel (line - 1)
            (b.getLine (line - 1)).length
        else prevWordStartGo b bigWord fuel line (column - 1)
      else
        ⟨line, backSegmentGo ln (¬ bigWord) (isWordChar c) column⟩

/-- The initial retreat step plus loop of `PreviousWordStart` /
`PreviousBigWordStart`. -/
def prevWordStartFrom (b : BufferState) (bigWord : Bool) (p : TextPosition) :
    TextPosition :=
  if b.lineCount = 0 then p
  else
    let p := clampPosition b p
    if p.column > 0 then
      prevWordStartGo b bigWord (bufFuel b) p.line (p.column - 1)
    else if p.line = 0 then ⟨0, 0⟩
    else prevWordStartGo b bigWord (bufFuel b) (p.line - 1)
      (b.getLine (p.line - 1)).length

/-- `PreviousWordStart`. -/
def previousWordStart (b : BufferState) (p : TextPosition) : TextPosition :=
  prevWordStartFrom b false p

/-- `PreviousBigWordStart`. -/
def previousBigWordStart (b : BufferState) (p : TextPosition) : TextPosition :=
  prevWordStartFrom b true p

/-- The forward walk of `WordEndInclusive` / `BigWordEndInclusive`. -/
def wordEndGo (b : BufferState) (bigWord : Bool) :
    Nat → Nat → Nat → TextPosition
  | 0, line, column => ⟨line, column⟩
  | fuel + 1, line, column =>
    if line < b.lineCount then
      let ln := b.getLine line
      if column ≥ ln.length then
        if line + 1 ≥ b.lineCount then ⟨line, ln.length⟩
        else wordEndGo b bigWord fuel (line + 1) 0
      else
        let c := ln.getD column ' '
        if cIsSpace c then wordEndGo b bigWord fuel line (column + 1)
        else
          let probe := scanSegment ln (¬ bigWord) (isWordChar c) column
          if probe = column then ⟨line, column⟩
          else ⟨line, probe - 1⟩
    else ⟨b.lineCount - 1, (b.getLine (b.lineCount - 1)).length⟩

/-- `WordEndInclusive`. -/
def wordEndInclusive (b : BufferState) (p : TextPosition) : TextPosition :=
  if b.lineCount = 0 then p
  else
    let p := clampPosition b p
    wordEndGo b false (bufFuel b) p.line p.column

/-- `BigWordEndInclusive`. -/
def bigWordEndInclusive (b : BufferState) (p : TextPosition) : TextPosition :=
  if b.lineCount = 0 then p
  else
    let p := clampPosition b p
    wordEndGo b true (bufFuel b) p.line p.column

/-- `FirstNonBlankColumn`: index of the first non-space character, else 0. -/
def firstNonBlankColumn (line : List Char) : Nat :=
  match line.findIdx? (fun c => ¬ cIsSpace c) with
  | some i => i
  | none => 0

/-- `FirstNonBlankPosition`. -/
def firstNonBlankPosition (b : BufferState) (line : Nat) : TextPosition :=
  if b.lineCount = 0 then ⟨0, 0⟩
  else
    let line := min line (b.lineCount - 1)
    ⟨line, firstNonBlankColumn (b.getLine line)⟩

/-- `ToSignedDelta`: clamp a `std::size_t` count into a non-negative `int`. -/
def toSignedDelta (count : Nat) : Int :=
  if count = 0 then 0
  else if count > 2147483647 then 2147483647
  else Int.ofNat count

/-! ## Mode-controller state (`include/core/ModeController.hpp`) -/

/-- `CommandInvocation`: command id plus argument map. -/
structure CommandInvocation where
  commandId : String := ""
  arguments : List (String × String) := []
  deriving DecidableEq, Repr, Inhabited

/-- The `ModeController`'s fields (owning references to the shared
`EditorState` and the process-wide `Registry`). -/
structure Ctrl where
  ed : EditorState := {}
  commandBuffer : List Char := []
  pendingNormalCommand : List Char := []
  lastFindTarget : Char := '\x00'
  hasLastFind : Bool := false
  lastFindBackward : Bool := false
  lastFindTill : Bool := false
  prefixCount : Nat := 0
  motionCount : Nat := 0
  hasPrefixCount : Bool := false
  hasMotionCount : Bool := false
  yankBuffer : List (List Char) := []
  yankLinewise : Bool := false
  registry : RegState := {}
  deriving DecidableEq, Repr, Inhabited

/-- Interpretation of defunctionalised native callbacks: a callback
identifier and the invocation payload transform the whole controller
state, exactly as the C++ `std::function` closures capture `this`. -/
def Interp : Type := Nat → CommandInvocation → Ctrl → Ctrl

def Ctrl.withEd (s : Ctrl) (f : EditorState → EditorState) : Ctrl :=
  { s with ed := f s.ed }

def Ctrl.setStatus (s : Ctrl) (message : String) (severity : StatusSeverity) : Ctrl :=
  s.withEd (fun e => edSetStatus e message severity)

def Ctrl.clearStatus (s : Ctrl) : Ctrl := s.withEd edClearStatus

def Ctrl.clearPending (s : Ctrl) : Ctrl := { s with pendingNormalCommand := [] }

/-- `ModeController::ResetCount`. -/
def resetCount (s : Ctrl) : Ctrl :=
  { s with prefixCount := 0, motionCount := 0,
           hasPrefixCount := false, hasMotionCount := false }

/-- `ModeController::ConsumeCountOr`: the effective count (motion count,
multiplied by the prefix count and saturated at 1,000,000 when both are
set; else the prefix count; else the fallback), clearing both counts. -/
def consumeCountOr (s : Ctrl) (fallback : Nat) : Nat × Ctrl :=
  let kHasPrefix := s.hasPrefixCount ∧ s.prefixCount > 0
  let kHasMotion := s.hasMotionCount ∧ s.motionCount > 0
  let result :=
    if kHasMotion then
      if kHasPrefix then min (s.prefixCount * s.motionCount) kMaxCountValue
      else s.motionCount
    else if kHasPrefix then s.prefixCount
    else fallback
  (result, resetCount s)

/-- `ModeController::HasYank`. -/
def hasYank (s : Ctrl) : Bool := s.yankBuffer ≠ []

/-- `ModeController::CopyLineRange`. -/
def copyLineRange (s : Ctrl) (startLine lineCount : Nat) : Bool × Ctrl :=
  let b := s.ed.buffer
  if b.lineCount = 0 ∨ startLine ≥ b.lineCount ∨ lineCount = 0 then (false, s)
  else
    let kAvailable := b.lineCount - startLine
    let lineCount := min lineCount kAvailable
    if lineCount = 0 then (false, s)
    else
      (true, { s with yankBuffer := (b.lines.drop startLine).take lineCount,
                      yankLinewise := true })

/-- `ModeController::CopyCharacterRange`. -/
def copyCharacterRange (s : Ctrl) (startLine startColumn endLine endColumn : Nat) :
    Bool × Ctrl :=
  let b := s.ed.buffer
  if b.lineCount = 0 then (false, s)
  else if startLine > endLine ∨ (startLine = endLine ∧ startColumn ≥ endColumn) then
    (false, s)
  else
    let startLine := min startLine (b.lineCount - 1)
    let endLine := min endLine (b.lineCount - 1)
    let startText := b.getLine startLine
    let endText := b.getLine endLine
    let startColumn := min startColumn startText.length
    let endColumn := min endColumn endText.length
    if startLine = endLine then
      if startColumn ≥ endColumn then (false, s)
      else
        (true, { s with
          yankBuffer := [(startText.drop startColumn).take (endColumn - startColumn)],
          yankLinewise := false })
    else
      let middle := ((b.lines.drop (startLine + 1)).take (endLine - (startLine + 1)))
      (true, { s with
        yankBuffer := startText.drop startColumn :: middle ++ [endText.take endColumn],
        yankLinewise := false })

/-- The insertion loop inside `ModeController::PasteAfterCursor`
(`buffer.InsertLine(at + i, yank[i])`, stopping on failure). -/
def pasteInsertLines (b : BufferState) (at' : Nat) :
    List (List Char) → Bool × BufferState
  | [] => (true, b)
  | l :: rest =>
    match bufInsertLine b at' l with
    | (true, b') => pasteInsertLines b' (at' + 1) rest
    | (false, b') => (false, b')

/-- `ModeController::PasteAfterCursor`. -/
def pasteAfterCursor (s : Ctrl) : Bool × Ctrl :=
  if ¬ hasYank s then (false, s.setStatus "Nothing to paste" .kWarning)
  else
    let s := if s.ed.buffer.lineCount = 0
      then s.withEd (fun e => { e with buffer := (bufInsertLine e.buffer 0 []).2 })
      else s
    let cursor := clampPosition s.ed.buffer ⟨s.ed.cursorLine, s.ed.cursorColumn⟩
    if s.yankLinewise then
      let kInsertLine := cursor.line + 1
      match pasteInsertLines s.ed.buffer kInsertLine s.yankBuffer with
      | (false, b') =>
        (false, (s.withEd (fun e => { e with buffer := b' })).setStatus
          "Paste failed" .kWarning)
      | (true, b') =>
        let kFirstInserted := min kInsertLine (b'.lineCount - 1)
        let kColumn := firstNonBlankColumn (b'.getLine kFirstInserted)
        let s := s.withEd (fun e =>
          edMoveCursorLine (edSetCursor { e with buffer := b' } kFirstInserted kColumn) 0)
        (true, s)
    else
      let line := cursor.line
      let column := cursor.column
      let current := s.ed.buffer.getLine line
      let kInsertColumn := min (column + 1) current.length
      let front := s.yankBuffer.headD []
      let pre := current.take kInsertColumn
      let suffix := current.drop kInsertColumn
      if s.yankBuffer.length = 1 then
        let s := s.withEd (fun e =>
          { e with buffer := e.buffer.setLine line (pre ++ front ++ suffix) })
        let kInserted := front.length
        let kCursorColumn := if kInserted = 0 then pre.length
          else pre.length + kInserted - 1
        (true, s.withEd (fun e => edMoveCursorLine (edSetCursor e line kCursorColumn) 0))
      else
        let b1 := s.ed.buffer.setLine line (pre ++ front)
        match pasteInsertLines b1 (line + 1) s.yankBuffer.tail with
        | (false, b') =>
          (false, (s.withEd (fun e => { e with buffer := b' })).setStatus
            "Paste failed" .kWarning)
        | (true, b') =>
          let kLastInsertedLine := line + s.yankBuffer.length - 1
          let lastLine := b'.getLine kLastInsertedLine
          let b'' := b'.setLine kLastInsertedLine (lastLine ++ suffix)
          let back := s.yankBuffer.getLastD []
          let kCursorColumn := if back = [] then 0 else back.length - 1
          (true, s.withEd (fun e =>
            edMoveCursorLine (edSetCursor { e with buffer := b'' }
              kLastInsertedLine kCursorColumn) 0))

/-- The deletion loop inside `ModeController::DeleteLineRange`. -/
def deleteLineLoop (b : BufferState) (startLine : Nat) :
    Nat → Nat → Nat × BufferState
  | 0, deleted => (deleted, b)
  | n + 1, deleted =>
    if startLine < b.lineCount then
      match bufDeleteLine b startLine with
      | (true, b') => deleteLineLoop b' startLine n (deleted + 1)
      | (false, b') => (deleted, b')
    else (deleted, b)

/-- `ModeController::DeleteLineRange`: returns the number of lines removed. -/
def deleteLineRange (s : Ctrl) (startLine lineCount : Nat) : Nat × Ctrl :=
  if lineCount = 0 then (0, s)
  else
    let b := s.ed.buffer
    if b.lineCount = 0 ∨ startLine ≥ b.lineCount then (0, s)
    else
      let (deleted, b') := deleteLineLoop b startLine lineCount 0
      (deleted, s.withEd (fun e => { e with buffer := b' }))

/-- The unconditional deletion loop inside
`ModeController::DeleteCharacterRange` (return value ignored). -/
def deleteLinesAt (at' : Nat) : Nat → BufferState → BufferState
  | 0, b => b
  | n + 1, b => deleteLinesAt at' n (bufDeleteLine b at').2

/-- `ModeController::DeleteCharacterRange`. -/
def deleteCharacterRange (s : Ctrl) (startLine startColumn endLine endColumn : Nat) :
    Bool × Ctrl :=
  let b := s.ed.buffer
  if b.lineCount = 0 then (false, s)
  else if startLine > endLine ∨ (startLine = endLine ∧ startColumn ≥ endColumn) then
    (false, s)
  else
    let startLine := min startLine (b.lineCount - 1)
    let endLine := min endLine (b.lineCount - 1)
    let startText := b.getLine startLine
    let endText := b.getLine endLine
    let startColumn := min startColumn startText.length
    let endColumn := min endColumn endText.length
    if startLine = endLine then
      if startColumn ≥ endColumn then (false, s)
      else
        let target := startText.take startColumn ++ startText.drop endColumn
        (true, s.withEd (fun e => { e with buffer := e.buffer.setLine startLine target }))
    else
      let pre := startText.take startColumn
      let suffix := endText.drop endColumn
      let kLinesToDelete := endLine - startLine
      let b' := deleteLinesAt (startLine + 1) kLinesToDelete b
      (true, s.withEd (fun e => { e with buffer := b'.setLine startLine (pre ++ suffix) }))

/-- `ModeController::InsertNewline`. -/
def insertNewline (s : Ctrl) : Ctrl :=
  let kLine := s.ed.cursorLine
  let kColumn := s.ed.cursorColumn
  let current := s.ed.buffer.getLine kLine
  let tail := current.drop kColumn
  let b1 := s.ed.buffer.setLine kLine (current.take kColumn)
  match bufInsertLine b1 (kLine + 1) tail with
  | (false, b2) =>
    (s.withEd (fun e => { e with buffer := b2 })).setStatus "Insert failed" .kError
  | (true, b2) =>
    (s.withEd (fun e => edSetCursor { e with buffer := b2 } (kLine + 1) 0))

/-! ## Find motions (`ModeController::ApplyFindCommand` and helpers) -/

inductive FindCommandAction where
  | kMove | kDelete | kYank
  deriving DecidableEq, Repr, Inhabited

inductive FindOperationKind where
  | kForwardTo | kForwardTill | kBackwardTo | kBackwardTill
  deriving DecidableEq, Repr, Inhabited

structure FindMotionResult where
  cursor : TextPosition := {}
  matchedColumn : Nat := 0
  includeTargetChar : Bool := false
  backward : Bool := false
  deriving DecidableEq, Repr, Inhabited

/-- `FindKindFromCommand`. -/
def findKindFromCommand (command : Char) : FindOperationKind :=
  if command = 'f' then .kForwardTo
  else if command = 'F' then .kBackwardTo
  else if command = 't' then .kForwardTill
  else if command = 'T' then .kBackwardTill
  else .kForwardTo

/-- `CommandFromState`. -/
def commandFromState (backward till : Bool) : Char :=
  if ¬ backward ∧ ¬ till then 'f'
  else if ¬ backward ∧ till then 't'
  else if backward ∧ ¬ till then 'F'
  else 'T'

/-- The backward scan `for (; position < line.size(); --position)` in
`ApplyFindCommand`, entered at `position` after the initial decrement. -/
def scanBackward (line : List Char) (target : Char) : Nat → Option Nat
  | 0 => if 0 < line.length ∧ line.getD 0 ' ' = target then some 0 else none
  | p + 1 =>
    if p + 1 < line.length then
      if line.getD (p + 1) ' ' = target then some (p + 1)
      else scanBackward line target p
    else none

/-- The forward scan `for (; position < line.size(); ++position)`. -/
def scanForwardGo (line : List Char) (target : Char) : Nat → Nat → Option Nat
  | 0, _ => none
  | fuel + 1, p =>
    if p < line.length then
      if line.getD p ' ' = target then some p
      else scanForwardGo line target fuel (p + 1)
    else none

def scanForward (line : List Char) (target : Char) (p : Nat) : Option Nat :=
  scanForwardGo line target (line.length + 1) p

/-- The `while (count > 0)` occurrence loop of `ApplyFindCommand`.  Note the
source keeps the `result` from an earlier iteration when a later scan finds
nothing, so only a scan with no prior success reports failure (`none`). -/
def findOccurrenceLoop (line : List Char) (target : Char) (kLine : Nat)
    (backward till : Bool) :
    Nat → Nat → Option FindMotionResult → Option FindMotionResult
  | 0, _, result => result
  | count + 1, position, result =>
    if backward then
      if position = 0 then none
      else
        let result' : Option FindMotionResult :=
          match scanBackward line target (position - 1) with
          | some m => some { cursor := ⟨kLine, m⟩, matchedColumn := m,
                             includeTargetChar := ¬ till, backward := true }
          | none => result
        match result' with
        | none => none
        | some fr => findOccurrenceLoop line target kLine backward till
            count fr.matchedColumn (some fr)
    else
      if position + 1 ≥ line.length then none
      else
        let result' : Option FindMotionResult :=
          match scanForward line target (position + 1) with
          | some m => some { cursor := ⟨kLine, m⟩, matchedColumn := m,
                             includeTargetChar := ¬ till, backward := false }
          | none => result
        match result' with
        | none => none
        | some fr => findOccurrenceLoop line target kLine backward till
            count fr.matchedColumn (some fr)

/-- The `apply_motion` lambda in `ApplyFindCommand`. -/
def applyFindMotion (s : Ctrl) (motion : FindMotionResult) : Ctrl :=
  let kCursorColumn :=
    if motion.includeTargetChar then motion.matchedColumn
    else if motion.backward then motion.matchedColumn + 1
    else motion.matchedColumn - 1
  s.withEd (fun e => edMoveCursorLine (edSetCursor e motion.cursor.line kCursorColumn) 0)

/-- `ModeController::ApplyFindCommand`. -/
def applyFindCommand (s : Ctrl) (command : Char) (action : FindCommandAction)
    (target : Char) : Bool × Ctrl :=
  if s.ed.buffer.lineCount = 0 then (false, s)
  else
    let (kCount, s) := consumeCountOr s 1
    let kLine := s.ed.cursorLine
    let kColumn := s.ed.cursorColumn
    let line := s.ed.buffer.getLine kLine
    if line = [] then (false, s.setStatus "Line empty" .kWarning)
    else
      let kKind := findKindFromCommand command
      let kBackward := kKind = .kBackwardTo ∨ kKind = .kBackwardTill
      let kTill := kKind = .kForwardTill ∨ kKind = .kBackwardTill
      match findOccurrenceLoop line target kLine kBackward kTill kCount kColumn none with
      | none => (false, resetCount (s.setStatus "Target not found" .kWarning))
      | some result =>
        let finish (s : Ctrl) : Ctrl :=
          { s with hasLastFind := true, lastFindTarget := target,
                   lastFindBackward := result.backward, lastFindTill := kTill }
        match action with
        | .kMove => (true, finish (applyFindMotion s result))
        | .kDelete =>
          let kStartColumn := min kColumn result.matchedColumn
          let kEndColumn := max kColumn result.matchedColumn + 1
          match deleteCharacterRange s kLine kStartColumn kLine kEndColumn with
          | (false, s') => (false, s'.setStatus "Delete failed" .kWarning)
          | (true, s') =>
            (true, finish (s'.withEd (fun e =>
              edMoveCursorLine (edSetCursor e kLine kStartColumn) 0)))
        | .kYank =>
          let kStartColumn := min kColumn result.matchedColumn
          let kEndColumn := max kColumn result.matchedColumn + 1
          match copyCharacterRange s kLine kStartColumn kLine kEndColumn with
          | (false, s') => (false, s'.setStatus "Yank failed" .kWarning)
          | (true, s') => (true, finish (applyFindMotion s' result))

/-- `ModeController::ApplyRepeatFind`. -/
def applyRepeatFind (s : Ctrl) (reverseDirection : Bool)
    (action : FindCommandAction) : Bool × Ctrl :=
  if ¬ s.hasLastFind then (false, s.setStatus "No previous find" .kWarning)
  else
    let backward := if reverseDirection then ¬ s.lastFindBackward
      else s.lastFindBackward
    applyFindCommand s (commandFromState backward s.lastFindTill) action
      s.lastFindTarget

/-! ## Operators (`HandleDeleteOperator`, `HandleYankOperator`) -/

/-- The `advance_word` lambda in `HandleDeleteOperator`. -/
def advanceWord (b : BufferState) (motion : Char) (p : TextPosition) : TextPosition :=
  if motion = 'w' then nextWordStart b p
  else if motion = 'W' then nextBigWordStart b p
  else if motion = 'e' then wordEndInclusive b p
  else if motion = 'E' then bigWordEndInclusive b p
  else if motion = 'b' then previousWordStart b p
  else if motion = 'B' then previousBigWordStart b p
  else p

def iterateAdvance (b : BufferState) (motion : Char) :
    Nat → TextPosition → TextPosition
  | 0, p => p
  | n + 1, p => iterateAdvance b motion n (advanceWord b motion p)

/-- Status text `"Deleted N line(s)"` assembled by the delete handlers. -/
def deletedLinesMessage (deleted : Nat) : String :=
  "Deleted " ++ toString deleted ++ " line" ++ (if deleted ≠ 1 then "s" else "")

/-- `ModeController::HandleDeleteOperator`.  Note the source calls
`ResetCount()` before `ConsumeCountOr`, so every `d<motion>` runs with an
effective count of 1. -/
def handleDeleteOperator (s : Ctrl) (motion : Char) : Bool × Ctrl :=
  let s := resetCount s
  if motion = 'd' then
    let (kCount, s) := consumeCountOr s 1
    let (kDeleted, s) := deleteLineRange s s.ed.cursorLine kCount
    if kDeleted = 0 then (false, s)
    else
      (true, (s.withEd (fun e => edMoveCursorLine e 0)).setStatus
        (deletedLinesMessage kDeleted) .kInfo)
  else if motion = 'w' ∨ motion = 'W' ∨ motion = 'b' ∨ motion = 'B' ∨
      motion = 'e' ∨ motion = 'E' then
    let (kCount, s) := consumeCountOr s 1
    let start : TextPosition := ⟨s.ed.cursorLine, s.ed.cursorColumn⟩
    let e := iterateAdvance s.ed.buffer motion kCount start
    let e := if motion = 'e' ∨ motion = 'E' then { e with column := e.column + 1 }
      else e
    match deleteCharacterRange s start.line start.column e.line e.column with
    | (false, s') => (false, s')
    | (true, s') =>
      (true, s'.withEd (fun ed =>
        edMoveCursorLine (edSetCursor ed start.line start.column) 0))
  else (false, s)

/-- `ModeController::HandleYankOperator` (`yy` aside, only the dead `'y'`
case exists; every other motion fails). -/
def handleYankOperator (s : Ctrl) (motion : Char) : Bool × Ctrl :=
  let s := resetCount s
  if motion = 'y' then
    let (kCount, s) := consumeCountOr s 1
    copyLineRange s s.ed.cursorLine kCount
  else (false, s)

/-! ## Keybinding dispatch (`ExecuteRegisteredBinding`, `InvokeCommand`) -/

/-- `ModeController::ToKeybindingMode`. -/
def toKeybindingMode (mode : Mode) : KeybindingMode :=
  match mode with
  | .kNormal => .kNormal
  | .kInsert => .kInsert
  | .kCommandLine => .kCommand
  | .kVisual => .kVisual

/-- `ModeController::MakeGesture`. -/
def makeGesture (event : KeyEvent) : String :=
  match event.code with
  | .kCharacter => if event.value ≠ '\x00' then String.mk [event.value] else ""
  | .kEnter => "<Enter>"
  | .kEscape => "<Esc>"
  | .kBackspace => "<Backspace>"
  | .kArrowUp => "<Up>"
  | .kArrowDown => "<Down>"
  | .kArrowLeft => "<Left>"
  | .kArrowRight => "<Right>"

/-- `ModeController::InvokeCommand`: look the command up (shadow included)
and run its native callback through the interpretation. -/
def invokeCommand (interp : Interp) (s : Ctrl) (commandId : String)
    (args : List (String × String)) : Bool × Ctrl :=
  match findCommand s.registry commandId true with
  | none => (false, s.setStatus "Command not found" .kWarning)
  | some command =>
    match command.callable.nativeCallback with
    | some cb =>
      (true, interp cb { commandId := commandId, arguments := args } s)
    | none => (false, s.setStatus "Command not executable" .kWarning)

/-- `ModeController::ExecuteRegisteredBinding`: skipped while a multi-key
command is pending; otherwise resolve the gesture for the current mode and
fall back to the `Any` mode. -/
def executeRegisteredBinding (interp : Interp) (s : Ctrl) (event : KeyEvent) :
    Bool × Ctrl :=
  if s.pendingNormalCommand ≠ [] then (false, s)
  else
    let gesture := makeGesture event
    if gesture = "" then (false, s)
    else
      let mode := toKeybindingMode s.ed.mode
      let binding := match resolveKeybinding s.registry mode gesture with
        | some b => some b
        | none => resolveKeybinding s.registry .kAny gesture
      match binding with
      | none => (false, s)
      | some record =>
        invokeCommand interp s record.descriptor.commandId
          record.descriptor.arguments

/-! ## Normal-mode key handling (`ModeController::HandleNormalMode`) -/

/-- The `"dd"` branch (also reached via `d` + `<Down>` with a different
count fallback in `dArrowCount`). -/
def ddExec (s : Ctrl) (kCount : Nat) : Ctrl :=
  let (kDeleted, s) := deleteLineRange s s.ed.cursorLine kCount
  if kDeleted = 0 then s.setStatus "Delete failed" .kWarning
  else
    (s.withEd (fun e => edMoveCursorLine e 0)).setStatus
      (deletedLinesMessage kDeleted) .kInfo

/-- The `d` + `<Down>` branch of `HandleNormalMode`. -/
def dArrowDown (s : Ctrl) : Ctrl :=
  let s := s.clearPending
  let (c, s) := consumeCountOr s 2
  ddExec s (max 1 c)

/-- The `d` + `<Up>` branch of `HandleNormalMode`. -/
def dArrowUp (s : Ctrl) : Ctrl :=
  let (c, s) := consumeCountOr s 2
  let kLines := max 1 c
  let kCurrent := s.ed.cursorLine
  let kStart := if kLines > kCurrent + 1 then 0 else kCurrent + 1 - kLines
  let s := s.clearPending
  let (kDeleted, s) := deleteLineRange s kStart kLines
  if kDeleted = 0 then s.setStatus "Delete failed" .kWarning
  else
    (s.withEd (fun e =>
      edMoveCursorLine (edSetCursor e kStart 0) 0)).setStatus
      (deletedLinesMessage kDeleted) .kInfo

/-- Plain cursor motion by count along lines (`j`/`k`/arrow branches). -/
def moveLines (s : Ctrl) (sign : Int) : Ctrl :=
  let s := s.clearPending
  let (kCount, s) := consumeCountOr s 1
  (s.withEd (fun e => edMoveCursorLine e (sign * toSignedDelta kCount))).clearStatus

/-- Plain cursor motion by count along columns (`h`/`l`/arrow branches). -/
def moveColumns (s : Ctrl) (sign : Int) : Ctrl :=
  let s := s.clearPending
  let (kCount, s) := consumeCountOr s 1
  (s.withEd (fun e => edMoveCursorColumn e (sign * toSignedDelta kCount))).clearStatus

/-- The `d0` special case (`kValue == '0'` with pending `"d"`). -/
def dZeroExec (s : Ctrl) : Ctrl :=
  let kLine := s.ed.cursorLine
  let kColumn := min s.ed.cursorColumn (s.ed.buffer.getLine kLine).length
  let s := resetCount s.clearPending
  if kColumn = 0 then s.setStatus "Already at line start" .kWarning
  else
    match deleteCharacterRange s kLine 0 kLine kColumn with
    | (true, s') =>
      (s'.withEd (fun e =>
        edMoveCursorLine (edSetCursor e kLine 0) 0)).setStatus
        "Deleted to line start" .kInfo
    | (false, s') => s'.setStatus "Delete failed" .kWarning

/-- The `y0` special case. -/
def yZeroExec (s : Ctrl) : Ctrl :=
  let kLine := s.ed.cursorLine
  let kColumn := min s.ed.cursorColumn (s.ed.buffer.getLine kLine).length
  let s := resetCount s.clearPending
  if kColumn = 0 then s.setStatus "Nothing to yank" .kWarning
  else
    match copyCharacterRange s kLine 0 kLine kColumn with
    | (true, s') => s'.setStatus "Yanked to line start" .kInfo
    | (false, s') => s'.setStatus "Yank failed" .kWarning

/-- The paste branch shared by the single-key `p`/`P` case and the two-key
fallthrough: a failed paste overwrites the status with "Paste failed". -/
def pasteExec (s : Ctrl) : Ctrl :=
  let s := resetCount s
  match pasteAfterCursor s with
  | (false, s') => s'.setStatus "Paste failed" .kWarning
  | (true, s') => s'

/-- The `"G"` branch. -/
def bigGExec (s : Ctrl) : Ctrl :=
  let kTarget := if s.hasPrefixCount
    then min s.prefixCount s.ed.buffer.lineCount
    else s.ed.buffer.lineCount
  let s := resetCount s
  let s := if kTarget = 0 then s.withEd (fun e => edSetCursor e 0 0)
    else s.withEd (fun e => edSetCursor e (kTarget - 1) 0)
  (s.withEd (fun e => edMoveCursorLine e 0)).clearStatus

/-- Everything `HandleNormalMode` does after the single-key switch: match
the completed pending command against the two-key commands. -/
def twoKeyExec (s : Ctrl) : Ctrl :=
  let kCommand := s.pendingNormalCommand
  let s := s.clearPending
  if kCommand = ['d', 'd'] then
    let (kCount, s) := consumeCountOr s 1
    ddExec s kCount
  else if kCommand = ['y', 'y'] then
    let (kCount, s) := consumeCountOr s 1
    match copyLineRange s s.ed.cursorLine kCount with
    | (true, s') => s'.setStatus "Yanked line" .kInfo
    | (false, s') => s'.setStatus "Yank failed" .kWarning
  else if kCommand = ['p'] ∨ kCommand = ['P'] then pasteExec s
  else if kCommand = ['g', 'g'] then
    let s := resetCount s
    (s.withEd (fun e => edMoveCursorLine (edSetCursor e 0 0) 0)).clearStatus
  else if kCommand = ['G'] then bigGExec s
  else if kCommand.length = 2 ∧
      (kCommand.headD ' ' = 'f' ∨ kCommand.headD ' ' = 'F' ∨
       kCommand.headD ' ' = 't' ∨ kCommand.headD ' ' = 'T') then
    match applyFindCommand s (kCommand.headD ' ') .kMove (kCommand.getLastD ' ') with
    | (false, s') => s'.setStatus "Find failed" .kWarning
    | (true, s') => s'
  else if kCommand.length = 2 ∧ kCommand.headD ' ' = 'd' then
    match handleDeleteOperator s (kCommand.getLastD ' ') with
    | (false, s') => s'.setStatus "Delete failed" .kWarning
    | (true, s') => s'
  else if kCommand.length = 2 ∧ kCommand.headD ' ' = 'y' then
    match handleYankOperator s (kCommand.getLastD ' ') with
    | (false, s') => s'.setStatus "Yank failed" .kWarning
    | (true, s') => s'
  else resetCount (s.setStatus "Unknown command" .kWarning)

/-- The tail of the character branch: push the key onto the pending command,
echo it in the status line, run the single-key switch, then fall through to
the two-key commands. -/
def pendingPush (s : Ctrl) (c : Char) : Ctrl :=
  let s := { s with pendingNormalCommand := s.pendingNormalCommand ++ [c] }
  let s := s.setStatus (formatPendingStatus s.pendingNormalCommand s.prefixCount
    s.hasPrefixCount s.motionCount s.hasMotionCount) .kInfo
  if s.pendingNormalCommand.length = 1 then
    let kCommand := s.pendingNormalCommand.headD ' '
    if kCommand = 'd' ∨ kCommand = 'c' ∨ kCommand = 'y' then s
    else if kCommand = 'p' ∨ kCommand = 'P' then pasteExec s.clearPending
    else if kCommand = 'u' then
      resetCount (s.clearPending.setStatus "Nothing to undo" .kWarning)
    else if kCommand = 'r' then
      resetCount (s.clearPending.setStatus "Nothing to redo" .kWarning)
    else if kCommand = 'n' then
      (applyRepeatFind (resetCount s.clearPending) false .kMove).2
    else if kCommand = 'N' then
      (applyRepeatFind (resetCount s.clearPending) true .kMove).2
    else if kCommand = 'f' ∨ kCommand = 'F' ∨ kCommand = 't' ∨ kCommand = 'T' then s
    else twoKeyExec s
  else twoKeyExec s

/-- Body of the `'i'` case / `core.normal.enter_insert` callback. -/
def enterInsertExec (s : Ctrl) : Ctrl :=
  (resetCount s.clearPending).withEd (fun e =>
    edSetStatus { e with mode := .kInsert } "-- INSERT --" .kInfo)

/-- Body of the `'a'` case / `core.normal.append` callback. -/
def appendExec (s : Ctrl) : Ctrl :=
  (resetCount s.clearPending).withEd (fun e =>
    edSetStatus { edMoveCursorColumn e 1 with mode := .kInsert }
      "-- INSERT --" .kInfo)

/-- Body of the `'A'` case / `core.normal.append_line_end` callback. -/
def appendLineEndExec (s : Ctrl) : Ctrl :=
  let s := resetCount s.clearPending
  let kLine := s.ed.cursorLine
  let kLength := (s.ed.buffer.getLine kLine).length
  s.withEd (fun e =>
    edSetStatus { edMoveCursorLine (edSetCursor e kLine kLength) 0 with
      mode := .kInsert } "-- INSERT --" .kInfo)

/-- Body of the `'I'` case / `core.normal.insert_line_start` callback. -/
def insertLineStartExec (s : Ctrl) : Ctrl :=
  let s := resetCount s.clearPending
  let target := firstNonBlankPosition s.ed.buffer s.ed.cursorLine
  s.withEd (fun e =>
    edSetStatus { edMoveCursorLine (edSetCursor e target.line target.column) 0 with
      mode := .kInsert } "-- INSERT --" .kInfo)

/-- Body of the `'o'` case / `core.normal.insert_below` callback. -/
def insertBelowExec (s : Ctrl) : Ctrl :=
  let s := insertNewline (resetCount s.clearPending)
  s.withEd (fun e => edSetStatus { e with mode := .kInsert } "-- INSERT --" .kInfo)

/-- Body of the `'O'` case / `core.normal.insert_above` callback. -/
def insertAboveExec (s : Ctrl) : Ctrl :=
  let s := resetCount s.clearPending
  let kLine := s.ed.cursorLine
  let s := match bufInsertLine s.ed.buffer kLine [] with
    | (true, b') => s.withEd (fun e =>
        edMoveCursorLine (edSetCursor { e with buffer := b' } kLine 0) 0)
    | (false, _) => s
  s.withEd (fun e => edSetStatus { e with mode := .kInsert } "-- INSERT --" .kInfo)

/-- The immediate single-key switch of `HandleNormalMode` (cases that act
without touching the pending command), falling through to `pendingPush`. -/
def normalSwitch (s : Ctrl) (c : Char) : Ctrl :=
  if c = 'h' then moveColumns s (-1)
  else if c = 'j' then moveLines s 1
  else if c = 'k' then moveLines s (-1)
  else if c = 'l' then moveColumns s 1
  else if c = 'i' then enterInsertExec s
  else if c = 'a' then appendExec s
  else if c = 'A' then appendLineEndExec s
  else if c = 'I' then insertLineStartExec s
  else if c = 'o' then insertBelowExec s
  else if c = 'O' then insertAboveExec s
  else if c = ':' then
    { resetCount s.clearPending with commandBuffer := [] }.withEd (fun e =>
      edSetStatus { e with mode := .kCommandLine } "-- COMMAND --" .kInfo)
  else if c = 'x' then
    let s := s.clearPending
    let (kCount, s) := consumeCountOr s 1
    let kLine := s.ed.cursorLine
    let kStartColumn := s.ed.cursorColumn
    match deleteCharacterRange s kLine kStartColumn kLine (kStartColumn + kCount) with
    | (true, s') =>
      (s'.withEd (fun e =>
        edMoveCursorLine (edSetCursor e kLine kStartColumn) 0)).setStatus
        "Deleted characters" .kInfo
    | (false, s') => s'.setStatus "Delete failed" .kWarning
  else pendingPush s c

/-- The digit-accumulation branch: before any pending command digits build
the prefix count, afterwards the motion count. -/
def digitStep (s : Ctrl) (c : Char) : Ctrl :=
  let kDigit := c.toNat - '0'.toNat
  if s.pendingNormalCommand = [] then
    let s := { s with hasPrefixCount := true,
                      prefixCount := appendCountDigit s.prefixCount kDigit }
    s.setStatus (formatPendingStatus s.pendingNormalCommand s.prefixCount
      s.hasPrefixCount s.motionCount s.hasMotionCount) .kInfo
  else
    let s := { s with hasMotionCount := true,
                      motionCount := appendCountDigit s.motionCount kDigit }
    s.setStatus (formatPendingStatus s.pendingNormalCommand s.prefixCount
      s.hasPrefixCount s.motionCount s.hasMotionCount) .kInfo

/-- The character-key part of `HandleNormalMode`: the `'0'` special cases,
then digits, then the single-key switch. -/
def normalCharKey (s : Ctrl) (c : Char) : Ctrl :=
  let afterZero := fun (s : Ctrl) =>
    if cIsDigit c then digitStep s c else normalSwitch s c
  if c = '0' ∧ ¬ s.hasPrefixCount ∧ ¬ s.hasMotionCount then
    if s.pendingNormalCommand = ['d'] then dZeroExec s
    else if s.pendingNormalCommand = ['y'] then yZeroExec s
    else if s.pendingNormalCommand = [] then
      let s := resetCount s
      let kLine := s.ed.cursorLine
      (s.withEd (fun e => edMoveCursorLine (edSetCursor e kLine 0) 0)).clearStatus
    else afterZero s
  else afterZero s

/-- `ModeController::HandleNormalMode`. -/
def handleNormalMode (interp : Interp) (s : Ctrl) (event : KeyEvent) : Ctrl :=
  if event.code = .kEscape then (resetCount s.clearPending).clearStatus
  else
    match executeRegisteredBinding interp s event with
    | (true, s') => s'
    | (false, s) =>
      match event.code with
      | .kArrowDown =>
        if s.pendingNormalCommand = ['d'] then dArrowDown s else moveLines s 1
      | .kArrowUp =>
        if s.pendingNormalCommand = ['d'] then dArrowUp s else moveLines s (-1)
      | .kArrowLeft => moveColumns s (-1)
      | .kArrowRight => moveColumns s 1
      | .kCharacter => normalCharKey s event.value
      | _ => (resetCount s.clearPending).clearStatus

/-- Feed a list of character keys to Normal mode in order, as the main loop
does with a drained batch. -/
def runNormalKeys (interp : Interp) (s : Ctrl) (keys : List Char) : Ctrl :=
  keys.foldl (fun s c => handleNormalMode interp s { code := .kCharacter, value := c }) s

/-! ## Default registrations (`ModeController::InitializeRegistryBindings`)
and the interpretation of the built-in callbacks -/

/-- The `sanitize_gesture` lambda: alphanumerics kept, everything else
replaced by `'_'`, empty results replaced by `"binding"`. -/
def sanitizeGesture (gesture : String) : String :=
  let result := String.mk (gesture.toList.map (fun ch =>
    if cIsAlnum ch then ch else '_'))
  if result = "" then "binding" else result

/-- The `register_normal` lambda: register the command, and unless it was
rejected register one Normal-mode keybinding per gesture.  The collected
`registry_handles_` only feed the destructor and are not modelled. -/
def registerNormal (reg : RegState) (commandId label : String)
    (callbackId : Nat) (gestures : List String) : RegState :=
  let origin : Origin := { kind := .kCore, name := "core.mode" }
  let descriptor : CommandDescriptor :=
    { id := commandId, label := label, shortDescription := label,
      modes := [Mode.kNormal], capabilities := 0, undoScope := .kNone }
  let commandRegistration : CommandRegistration :=
    { descriptor := descriptor,
      callable := { nativeCallback := some callbackId },
      lifetime := .kSession }
  let (commandResult, _, reg) := registerCommand reg commandRegistration origin
  if commandResult.status = .kRejected then reg
  else
    gestures.foldl (fun reg gesture =>
      let bindingDescriptor : KeybindingDescriptor :=
        { id := commandId ++ ".binding." ++ sanitizeGesture gesture,
          commandId := commandId, mode := .kNormal, gesture := gesture }
      let bindingRegistration : KeybindingRegistration :=
        { descriptor := bindingDescriptor, lifetime := .kSession }
      (registerKeybinding reg bindingRegistration origin).2.2) reg

/-- Callback identifiers for the ten built-in Normal-mode commands, in
registration order. -/
def cbMoveDown : Nat := 0
def cbMoveUp : Nat := 1
def cbMoveLeft : Nat := 2
def cbMoveRight : Nat := 3
def cbEnterInsert : Nat := 4
def cbAppend : Nat := 5
def cbAppendLineEnd : Nat := 6
def cbInsertLineStart : Nat := 7
def cbInsertBelow : Nat := 8
def cbInsertAbove : Nat := 9

/-- `ModeController::InitializeRegistryBindings`. -/
def initializeRegistryBindings (reg : RegState) : RegState :=
  let reg := registerNormal reg "core.normal.move_down" "Move Down"
    cbMoveDown ["j", "<Down>"]
  let reg := registerNormal reg "core.normal.move_up" "Move Up"
    cbMoveUp ["k", "<Up>"]
  let reg := registerNormal reg "core.normal.move_left" "Move Left"
    cbMoveLeft ["h", "<Left>"]
  let reg := registerNormal reg "core.normal.move_right" "Move Right"
    cbMoveRight ["l", "<Right>"]
  let reg := registerNormal reg "core.normal.enter_insert" "Enter Insert Mode"
    cbEnterInsert ["i"]
  let reg := registerNormal reg "core.normal.append" "Append" cbAppend ["a"]
  let reg := registerNormal reg "core.normal.append_line_end" "Append at Line End"
    cbAppendLineEnd ["A"]
  let reg := registerNormal reg "core.normal.insert_line_start" "Insert at Line Start"
    cbInsertLineStart ["I"]
  let reg := registerNormal reg "core.normal.insert_below" "Insert Below"
    cbInsertBelow ["o"]
  registerNormal reg "core.normal.insert_above" "Insert Above" cbInsertAbove ["O"]

/-- Semantics of the built-in callback closures registered by
`InitializeRegistryBindings` (each body is the verbatim lambda from the
source; the invocation payload is ignored, as there). -/
def builtinInterp : Interp := fun cb _ s =>
  if cb = cbMoveDown then moveLines s 1
  else if cb = cbMoveUp then moveLines s (-1)
  else if cb = cbMoveLeft then moveColumns s (-1)
  else if cb = cbMoveRight then moveColumns s 1
  else if cb = cbEnterInsert then enterInsertExec s
  else if cb = cbAppend then appendExec s
  else if cb = cbAppendLineEnd then appendLineEndExec s
  else if cb = cbInsertLineStart then insertLineStartExec s
  else if cb = cbInsertBelow then insertBelowExec s
  else if cb = cbInsertAbove then insertAboveExec s
  else s

/-- A controller as the constructor leaves it (fresh editing state over the
given lines, defaults registered into a fresh registry). -/
def initCtrl (lines : List (List Char)) : Ctrl :=
  { ed := { buffer := { lines := lines } },
    registry := initializeRegistryBindings {} }

/-! ## Scenario fixtures -/

/-- A registration for a command with id `"save"` and a native callback. -/
def saveRegistration : CommandRegistration :=
  { descriptor := { id := "save", label := "Save" },
    callable := { nativeCallback := some 100 } }

def coreOrigin : Origin := { kind := .kCore, name := "core" }
def userOrigin : Origin := { kind := .kUser, name := "user" }

/-- Register `"save"` from Core into a fresh registry. -/
def saveAfterCore : RegistrationResult × List RegistryEvent × RegState :=
  registerCommand {} saveRegistration coreOrigin

/-- Then register `"save"` from User. -/
def saveAfterUser : RegistrationResult × List RegistryEvent × RegState :=
  registerCommand saveAfterCore.2.2 saveRegistration userOrigin

/-- Then unregister the User registration through its handle. -/
def saveAfterUnregister : Bool × List RegistryEvent × RegState :=
  unregisterReg saveAfterUser.2.2 saveAfterUser.1.handle

/-- The default registry the `ModeController` constructor builds. -/
def defaultRegistry : RegState := initializeRegistryBindings {}

/-- A command registered for the Escape-binding scenario. -/
def escCommandRegistration : CommandRegistration :=
  { descriptor := { id := "esc.cmd", label := "Esc Hook" },
    callable := { nativeCallback := some 42 } }

/-- A Normal-mode keybinding on the `<Esc>` gesture targeting `esc.cmd`. -/
def escBindingDescriptor : KeybindingDescriptor :=
  { id := "esc.binding", commandId := "esc.cmd",
    mode := .kNormal, gesture := "<Esc>" }

def escBindingRegistration : KeybindingRegistration :=
  { descriptor := escBindingDescriptor }

/-- Registry holding the `<Esc>` command/binding pair. -/
def escRegistry : RegState :=
  (registerKeybinding (registerCommand {} escCommandRegistration coreOrigin).2.2
    escBindingRegistration coreOrigin).2.2

/-- A controller over that registry. -/
def escCtrl : Ctrl :=
  { ed := { buffer := { lines := ["abc".toList] } }, registry := escRegistry }

/-- An interpretation whose callbacks leave an observable marker. -/
def markerInterp : Interp := fun _ _ s => s.setStatus "callback invoked" .kInfo

/-- The keybinding record the default registry resolves for `j` in Normal
mode, and its target command record. -/
def jRecord : KeybindingRecord :=
  (resolveKeybinding defaultRegistry .kNormal "j").getD {}

def jCommand : CommandRecord :=
  (findCommand defaultRegistry "core.normal.move_down" true).getD {}

/-- Keybinding registrations competing for (Normal, "q"): Core first, then
User, which shadows the Core entry. -/
def qBindCoreDescriptor : KeybindingDescriptor :=
  { id := "qb.core", commandId := "cmd.q", mode := .kNormal, gesture := "q" }

def qBindUserDescriptor : KeybindingDescriptor :=
  { id := "qb.user", commandId := "cmd.q2", mode := .kNormal, gesture := "q" }

def qAfterCore : RegistrationResult × List RegistryEvent × RegState :=
  registerKeybinding {} { descriptor := qBindCoreDescriptor } coreOrigin

def qAfterUser : RegistrationResult × List RegistryEvent × RegState :=
  registerKeybinding qAfterCore.2.2 { descriptor := qBindUserDescriptor } userOrigin

/-- The spec's "best-ranked" notion for a command shadow stack: a member
preferred over every other member by precedence rank, then priority, then
earliest sequence number. -/
def IsBestRankedCommand (e : CommandEntry) (l : List CommandEntry) : Prop :=
  e ∈ l ∧ ∀ x ∈ l, x = e ∨ preferCommandEntry e x = true

/-- The spec's "best-ranked" notion for a keybinding shadow stack. -/
def IsBestRankedKeybinding (e : KeybindingEntry) (l : List KeybindingEntry) : Prop :=
  e ∈ l ∧ ∀ x ∈ l, x = e ∨ preferKeybindingEntry e x = true

/-! ## Claim theorems -/

/-- C1.  For a registry where a command with id "save" was first registered
by a Core origin, a subsequent `RegisterCommand` for the same id from a User
origin returns status Applied, makes the User entry the single active entry
for that id, pushes the Core entry onto that id's shadow stack, and appends
exactly one `ConflictRecord` to the audit log; subsequently calling
`Unregister` with the User registration's handle removes the User entry and
promotes the Core entry back to active. -/
theorem save_conflict_shadow_promote_cycle :
    saveAfterCore.1.status = .kApplied ∧
    saveAfterUser.1.status = .kApplied ∧
    (alook "save" saveAfterUser.2.2.commands).map
      (fun e => e.origin.kind) = some .kUser ∧
    (saveAfterUser.2.2.commands.filter (fun p => p.1 = "save")).length = 1 ∧
    (alook "save" saveAfterUser.2.2.commandShadow).map
      (fun l => l.map (fun e => e.origin.kind)) = some [.kCore] ∧
    saveAfterCore.2.2.conflicts = [] ∧
    saveAfterUser.2.2.conflicts.length = 1 ∧
    saveAfterUnregister.1 = true ∧
    (alook "save" saveAfterUnregister.2.2.commands).map
      (fun e => (e.origin.kind, e.token)) =
      some (.kCore, saveAfterCore.1.handle.token) ∧
    alook "save" saveAfterUnregister.2.2.commandShadow = none := by
  decide

/-- C2 (failing input).  Typing `2dw` — prefix count 2, then the delete-word
operator — on the buffer `["ab;cd"]` deletes only one word-class segment,
leaving `[";cd"]`: `HandleDeleteOperator` calls `ResetCount()` before
`ConsumeCountOr`, so the typed count is discarded and the effective count is
1 (count 2 would leave `["cd"]`).  The uncounted run `dw` produces the same
buffer. -/
theorem count_discarded_by_delete_operator :
    (runNormalKeys builtinInterp (initCtrl ["ab;cd".toList]) ['2', 'd', 'w']).ed.buffer.lines = [";cd".toList] ∧
    (runNormalKeys builtinInterp (initCtrl ["ab;cd".toList]) ['d', 'w']).ed.buffer.lines = [";cd".toList] ∧
    [";cd".toList] ≠ ["cd".toList] := by
  decide

/-- C3 (failing input).  From `["abc","def"]` with the cursor at (0,0), the
keys `d` `w` leave the buffer as `[""]` — not `["","def"]` as specified:
`NextWordStart` resets its `consumed_segment` flag when it advances to the
next line, walks through `"def"` as well, and returns (1,3), so the delete
range spans both lines. -/
theorem delete_word_crosses_line :
    (runNormalKeys builtinInterp (initCtrl ["abc".toList, "def".toList])
      ['d', 'w']).ed.buffer.lines = [[]] ∧
    (runNormalKeys builtinInterp (initCtrl ["abc".toList, "def".toList])
      ['d', 'w']).ed.cursorLine = 0 ∧
    (runNormalKeys builtinInterp (initCtrl ["abc".toList, "def".toList])
      ['d', 'w']).ed.cursorColumn = 0 ∧
    nextWordStart { lines := ["abc".toList, "def".toList] } ⟨0, 0⟩ = ⟨1, 3⟩ := by
  decide

/-- C4 (failing input).  On `["a","b","c","d"]` with the cursor at line 0,
`3dd` deletes three lines but stores nothing in the yank buffer (the `"dd"`
handler never calls a copy routine), so the following `p` finds the yank
buffer empty and pastes nothing: the buffer stays `["d"]` and the status ends
as "Paste failed". -/
theorem delete_lines_do_not_populate_yank :
    (runNormalKeys builtinInterp
      (initCtrl ["a".toList, "b".toList, "c".toList, "d".toList])
      ['3', 'd', 'd']).yankBuffer = [] ∧
    (runNormalKeys builtinInterp
      (initCtrl ["a".toList, "b".toList, "c".toList, "d".toList])
      ['3', 'd', 'd', 'p']).ed.buffer.lines = ["d".toList] ∧
    (runNormalKeys builtinInterp
      (initCtrl ["a".toList, "b".toList, "c".toList, "d".toList])
      ['3', 'd', 'd', 'p']).ed.statusMessage = "Paste failed" := by
  decide

/-- C5 (failing input).  With buffer `["abc"]` (no `x` ahead) the keys `f`
`x` do not fail with "Target not found": the single-key switch in
`HandleNormalMode` intercepts `x` even while the find prefix is pending and
runs the built-in delete-character command, changing the buffer to `["bc"]`.
Even for a target that does reach `ApplyFindCommand` (keys `f` `z`), the
failure status the claim names is overwritten: the buffer and cursor stay
unchanged but the final status is "Find failed". -/
theorem find_target_intercepted_by_switch :
    (runNormalKeys builtinInterp (initCtrl ["abc".toList]) ['f', 'x']).ed.buffer.lines = ["bc".toList] ∧
    (runNormalKeys builtinInterp (initCtrl ["abc".toList]) ['f', 'x']).ed.statusMessage = "Deleted characters" ∧
    (runNormalKeys builtinInterp (initCtrl ["abc".toList]) ['f', 'z']).ed.buffer.lines = ["abc".toList] ∧
    (runNormalKeys builtinInterp (initCtrl ["abc".toList]) ['f', 'z']).ed.statusMessage = "Find failed" := by
  decide

/-- C9.  The text buffer always contains at least one line: each buffer
mutation (`InsertChar`, `DeleteChar`, `InsertLine`, `DeleteLine`) preserves
`LineCount ≥ 1` — `DeleteLine` explicitly restores one empty line — and
typing `dd` on any single-line buffer leaves exactly one empty line. -/
theorem buffer_never_empty :
    (∀ (b : BufferState) (line column : Nat) (v : Char), b.lines ≠ [] →
      ((bufInsertChar b line column v).2).lines ≠ []) ∧
    (∀ (b : BufferState) (line column : Nat), b.lines ≠ [] →
      ((bufDeleteChar b line column).2).lines ≠ []) ∧
    (∀ (b : BufferState) (lineIndex : Nat) (l : List Char), b.lines ≠ [] →
      ((bufInsertLine b lineIndex l).2).lines ≠ []) ∧
    (∀ (b : BufferState) (lineIndex : Nat), b.lines ≠ [] →
      ((bufDeleteLine b lineIndex).2).lines ≠ []) ∧
    (∀ s : List Char,
      (runNormalKeys builtinInterp (initCtrl [s]) ['d', 'd']).ed.buffer.lines
        = [[]]) := by
  refine ⟨?_, ?_, ?_, ?_, ?_⟩
  · intro b line column v hb
    unfold bufInsertChar
    split
    · exact hb
    · dsimp only
      split
      · exact hb
      · simpa using fun h => hb (List.eq_nil_of_length_eq_zero (by simp [h]))
  · intro b line column hb
    unfold bufDeleteChar
    split
    · exact hb
    · dsimp only
      split
      · exact hb
      · simpa using fun h => hb (List.eq_nil_of_length_eq_zero (by simp [h]))
  · intro b lineIndex l hb
    unfold bufInsertLine
    split
    · exact hb
    · simp
  · intro b lineIndex hb
    unfold bufDeleteLine
    split
    · exact hb
    · dsimp only
      split
      · simp
      · assumption
  · intro s
    rfl

/-- C6 counterexample.  Pressing `p` in Normal mode with an empty yank
buffer leaves the buffer unchanged, but the status the user ends up with is
"Paste failed", not "Nothing to paste": `PasteAfterCursor` sets "Nothing to
paste" and returns false, whereupon `HandleNormalMode` overwrites the
message with "Paste failed". -/
theorem paste_empty_yank_status_overwritten :
    (handleNormalMode builtinInterp (initCtrl ["abc".toList])
      { code := .kCharacter, value := 'p' }).ed.buffer.lines = ["abc".toList] ∧
    (handleNormalMode builtinInterp (initCtrl ["abc".toList])
      { code := .kCharacter, value := 'p' }).ed.statusMessage = "Paste failed" ∧
    ("Paste failed" : String) ≠ "Nothing to paste" := by
  decide

/-- When no binding resolves for the event's gesture (neither for the
current mode nor for `Any`), `ExecuteRegisteredBinding` reports the key as
unhandled and leaves the controller untouched. -/
theorem executeRegisteredBinding_resolves_none (interp : Interp) (s : Ctrl)
    (ev : KeyEvent) (hp : s.pendingNormalCommand = [])
    (h1 : resolveKeybinding s.registry (toKeybindingMode s.ed.mode)
      (makeGesture ev) = none)
    (h2 : resolveKeybinding s.registry .kAny (makeGesture ev) = none) :
    executeRegisteredBinding interp s ev = (false, s) := by
  unfold executeRegisteredBinding
  rw [hp]
  simp [h1, h2]

/-- C6 amended.  Whenever the yank buffer is empty and no keybinding is
registered for the `p`/`P` gesture, pressing `p` (or `P`) in Normal mode
with no pending command leaves the text buffer unchanged and ends with the
status message "Paste failed" at warning severity (the transient "Nothing
to paste" set inside `PasteAfterCursor` is immediately overwritten). -/
theorem paste_empty_yank_sets_paste_failed (interp : Interp) (s : Ctrl) (c : Char)
    (hm : s.ed.mode = .kNormal) (hp : s.pendingNormalCommand = [])
    (hy : s.yankBuffer = [])
    (hc : c = 'p' ∨ c = 'P')
    (hrn : resolveKeybinding s.registry .kNormal (String.mk [c]) = none)
    (hra : resolveKeybinding s.registry .kAny (String.mk [c]) = none) :
    (handleNormalMode interp s { code := .kCharacter, value := c }).ed.buffer =
      s.ed.buffer ∧
    (handleNormalMode interp s { code := .kCharacter, value := c }).ed.statusMessage =
      "Paste failed" ∧
    (handleNormalMode interp s { code := .kCharacter, value := c }).ed.statusSeverity =
      .kWarning := by
  have hne : c ≠ '\x00' := by rcases hc with rfl | rfl <;> decide
  have hg : makeGesture { code := .kCharacter, value := c } = String.mk [c] := by
    simp [makeGesture, hne]
  have hb : executeRegisteredBinding interp s { code := .kCharacter, value := c }
      = (false, s) := by
    refine executeRegisteredBinding_resolves_none interp s _ hp ?_ ?_
    · rw [hg, hm]; exact hrn
    · rw [hg]; exact hra
  have hmain : handleNormalMode interp s { code := .kCharacter, value := c }
      = normalCharKey s c := by
    unfold handleNormalMode
    rw [hb]
    rfl
  rw [hmain]
  rcases hc with rfl | rfl <;>
  · simp only [normalCharKey, normalSwitch, pendingPush, pasteExec,
      pasteAfterCursor, hasYank, hy, cIsDigit, hp, Ctrl.clearPending,
      Ctrl.setStatus, Ctrl.clearStatus, Ctrl.withEd, resetCount, edSetStatus,
      edClearStatus]
    simp

/-- C6 amended, witness. -/
theorem paste_empty_yank_sets_paste_failed_witness :
    (handleNormalMode builtinInterp (initCtrl ["xy".toList])
      { code := .kCharacter, value := 'P' }).ed.buffer =
      (initCtrl ["xy".toList]).ed.buffer ∧
    (handleNormalMode builtinInterp (initCtrl ["xy".toList])
      { code := .kCharacter, value := 'P' }).ed.statusMessage = "Paste failed" ∧
    (handleNormalMode builtinInterp (initCtrl ["xy".toList])
      { code := .kCharacter, value := 'P' }).ed.statusSeverity = .kWarning :=
  paste_empty_yank_sets_paste_failed builtinInterp (initCtrl ["xy".toList]) 'P'
    (by decide) (by decide) (by decide) (Or.inr rfl) (by decide) (by decide)

/-- C7 counterexample.  An Escape key event in Normal mode with no pending
command is *not* routed through the Registry: with a Normal-mode binding
registered for the `<Esc>` gesture, `HandleNormalMode` still performs the
built-in escape handling (clearing pending state and status) and never
invokes the bound command's callback. -/
theorem escape_event_bypasses_registry :
    (resolveKeybinding escCtrl.registry .kNormal
      (makeGesture { code := .kEscape })).isSome = true ∧
    escCtrl.pendingNormalCommand = [] ∧
    escCtrl.ed.mode = .kNormal ∧
    handleNormalMode markerInterp escCtrl { code := .kEscape } =
      (resetCount escCtrl.clearPending).clearStatus ∧
    (handleNormalMode markerInterp escCtrl { code := .kEscape }).ed.statusMessage ≠
      "callback invoked" := by
  refine ⟨by decide, by decide, by decide, rfl, by decide⟩

/-- C7 amended.  For every non-Escape key event received in Normal mode
while no pending multi-key command is active and whose gesture is
non-empty, the engine first asks the Registry to resolve a keybinding for
the current mode (falling back to the `Any` mode) — and when a binding
resolves to a command that exists and carries a native callback, the
resulting state is exactly the callback applied to the pre-key state, with
the descriptor's stored arguments, and none of the built-in handling for
that key runs.  (When the event is Escape, the gesture is empty, or the
resolved command is missing or has no native callback, the engine falls
back to built-in handling.) -/
theorem registered_binding_preempts_builtin (interp : Interp) (s : Ctrl)
    (ev : KeyEvent) (r : KeybindingRecord) (cmd : CommandRecord) (cb : Nat)
    (hm : s.ed.mode = .kNormal)
    (hp : s.pendingNormalCommand = [])
    (hesc : ev.code ≠ .kEscape)
    (hg : makeGesture ev ≠ "")
    (hres : resolveKeybinding s.registry (toKeybindingMode s.ed.mode)
        (makeGesture ev) = some r ∨
      (resolveKeybinding s.registry (toKeybindingMode s.ed.mode)
        (makeGesture ev) = none ∧
       resolveKeybinding s.registry .kAny (makeGesture ev) = some r))
    (hcmd : findCommand s.registry r.descriptor.commandId true = some cmd)
    (hcb : cmd.callable.nativeCallback = some cb) :
    handleNormalMode interp s ev =
      interp cb { commandId := r.descriptor.commandId,
                  arguments := r.descriptor.arguments } s := by
  have hb : executeRegisteredBinding interp s ev =
      (true, interp cb { commandId := r.descriptor.commandId,
                         arguments := r.descriptor.arguments } s) := by
    unfold executeRegisteredBinding
    rw [hp]
    rcases hres with h | ⟨h1, h2⟩
    · simp [h, invokeCommand, hcmd, hcb, hg]
    · simp [h1, h2, invokeCommand, hcmd, hcb, hg]
  unfold handleNormalMode
  rw [if_neg hesc, hb]

/-- C7 amended, witness: in the default registry, `j` resolves to the
`core.normal.move_down` binding, whose callback handles the key. -/
theorem registered_binding_preempts_builtin_witness :
    handleNormalMode builtinInterp (initCtrl ["ab".toList])
      { code := .kCharacter, value := 'j' } =
      builtinInterp cbMoveDown
        { commandId := jRecord.descriptor.commandId,
          arguments := jRecord.descriptor.arguments }
        (initCtrl ["ab".toList]) :=
  registered_binding_preempts_builtin builtinInterp (initCtrl ["ab".toList])
    { code := .kCharacter, value := 'j' } jRecord jCommand cbMoveDown
    (by decide) (by decide) (by decide) (by decide)
    (Or.inl (by decide)) (by decide) (by decide)

/-- Looking up a key just written by `aset` yields the written value. -/
theorem alook_aset {κ β : Type} [DecidableEq κ] (k : κ) (v : β) :
    ∀ m : List (κ × β), alook k (aset k v m) = some v := by
  intro m
  induction m with
  | nil => simp [aset, alook]
  | cons p rest ih =>
    by_cases hk : p.1 = k
    · simp [aset, alook, hk]
    · simpa [aset, alook, hk] using ih

/-- A successful `alook` exhibits a member of the association list. -/
theorem alook_mem {κ β : Type} [DecidableEq κ] (k : κ) (v : β) :
    ∀ m : List (κ × β), alook k m = some v → (k, v) ∈ m := by
  intro m
  induction m with
  | nil => intro h; simp [alook] at h
  | cons p rest ih =>
    intro h
    obtain ⟨pk, pv⟩ := p
    by_cases hk : pk = k
    · simp only [alook, hk, if_pos] at h
      injection h with h2
      subst h2
      subst hk
      exact List.mem_cons_self _ _
    · simp only [alook, hk, if_neg, not_false_iff] at h
      exact List.mem_cons_of_mem _ (ih h)

/-- Characterisation of the command-shadow preference: higher precedence
rank, then higher priority, then earlier sequence. -/
theorem preferCommandEntry_iff (a b : CommandEntry) :
    preferCommandEntry a b = true ↔
      (precedenceRank b.origin < precedenceRank a.origin ∨
       (precedenceRank a.origin = precedenceRank b.origin ∧
        (b.priority < a.priority ∨
         (a.priority = b.priority ∧ a.sequence < b.sequence)))) := by
  unfold preferCommandEntry
  split_ifs with h1 h2 <;> simp <;> omega

theorem preferCommandEntry_trans (a b c : CommandEntry)
    (hab : preferCommandEntry a b = true) (hbc : preferCommandEntry b c = true) :
    preferCommandEntry a c = true := by
  rw [preferCommandEntry_iff] at hab hbc ⊢
  omega

theorem preferCommandEntry_flip (a b : CommandEntry)
    (hs : a.sequence ≠ b.sequence) (h : preferCommandEntry a b = false) :
    preferCommandEntry b a = true := by
  have h' : ¬ preferCommandEntry a b = true := by simp [h]
  rw [preferCommandEntry_iff] at h' ⊢
  omega

/-- Characterisation of the keybinding-shadow preference. -/
theorem preferKeybindingEntry_iff (a b : KeybindingEntry) :
    preferKeybindingEntry a b = true ↔
      (precedenceRank b.origin < precedenceRank a.origin ∨
       (precedenceRank a.origin = precedenceRank b.origin ∧
        (b.priority < a.priority ∨
         (a.priority = b.priority ∧ a.sequence < b.sequence)))) := by
  unfold preferKeybindingEntry
  split_ifs with h1 h2 <;> simp <;> omega

theorem preferKeybindingEntry_trans (a b c : KeybindingEntry)
    (hab : preferKeybindingEntry a b = true)
    (hbc : preferKeybindingEntry b c = true) :
    preferKeybindingEntry a c = true := by
  rw [preferKeybindingEntry_iff] at hab hbc ⊢
  omega

theorem preferKeybindingEntry_flip (a b : KeybindingEntry)
    (hs : a.sequence ≠ b.sequence) (h : preferKeybindingEntry a b = false) :
    preferKeybindingEntry b a = true := by
  have h' : ¬ preferKeybindingEntry a b = true := by simp [h]
  rw [preferKeybindingEntry_iff] at h' ⊢
  omega

/-- The `std::max_element` scan returns an element of the candidates that is
preferred over (or equal to) every candidate, provided the preference is
transitive, flips on distinct sequence numbers, and the candidates carry
pairwise-distinct sequence numbers. -/
theorem bestScan_spec {α : Type} (prefer : α → α → Bool) (seqOf : α → Nat)
    (htrans : ∀ a b c, prefer a b = true → prefer b c = true → prefer a c = true)
    (hflip : ∀ a b, seqOf a ≠ seqOf b → prefer a b = false → prefer b a = true) :
    ∀ (xs : List α) (bVal : α) (cur bIdx : Nat),
      (bVal :: xs).Pairwise (fun x y => seqOf x ≠ seqOf y) →
      (bestScan prefer xs cur bVal bIdx).2 ∈ bVal :: xs ∧
      ∀ y ∈ bVal :: xs, y = (bestScan prefer xs cur bVal bIdx).2 ∨
        prefer (bestScan prefer xs cur bVal bIdx).2 y = true := by
  intro xs
  induction xs with
  | nil =>
    intro bVal cur bIdx _
    refine ⟨by simp [bestScan], ?_⟩
    intro y hy
    simp only [List.mem_singleton] at hy
    exact Or.inl (by simpa [bestScan] using hy)
  | cons x xs ih =>
    intro bVal cur bIdx hpw
    have hpw' := hpw
    rw [List.pairwise_cons] at hpw'
    obtain ⟨hbAll, hpwTail⟩ := hpw'
    by_cases hpf : prefer bVal x = true
    · have hpwB : (bVal :: xs).Pairwise (fun a b => seqOf a ≠ seqOf b) := by
        rw [List.pairwise_cons]
        rw [List.pairwise_cons] at hpwTail
        exact ⟨fun y hy => hbAll y (List.mem_cons_of_mem _ hy), hpwTail.2⟩
      obtain ⟨hmem, hbeat⟩ := ih bVal (cur + 1) bIdx hpwB
      have hred : bestScan prefer (x :: xs) cur bVal bIdx =
          bestScan prefer xs (cur + 1) bVal bIdx := by
        simp [bestScan, hpf]
      rw [hred]
      constructor
      · rcases List.mem_cons.mp hmem with h | h
        · rw [h]
          exact List.mem_cons_self _ _
        · exact List.mem_cons_of_mem _ (List.mem_cons_of_mem _ h)
      · intro y hy
        rcases List.mem_cons.mp hy with h | hy'
        · rw [h]
          exact hbeat bVal (List.mem_cons_self _ _)
        · rcases List.mem_cons.mp hy' with h | hy''
          · rw [h]
            rcases hbeat bVal (List.mem_cons_self _ _) with h2 | h2
            · exact Or.inr (h2 ▸ hpf)
            · exact Or.inr (htrans _ _ _ h2 hpf)
          · exact hbeat y (List.mem_cons_of_mem _ hy'')
    · have hpf' : prefer bVal x = false := by
        cases h : prefer bVal x
        · rfl
        · exact absurd h hpf
      obtain ⟨hmem, hbeat⟩ := ih x (cur + 1) cur hpwTail
      have hred : bestScan prefer (x :: xs) cur bVal bIdx =
          bestScan prefer xs (cur + 1) x cur := by
        simp [bestScan, hpf']
      rw [hred]
      constructor
      · exact List.mem_cons_of_mem _ hmem
      · intro y hy
        rcases List.mem_cons.mp hy with h | hy'
        · rw [h]
          have hxy : prefer x bVal = true :=
            hflip bVal x (hbAll x (List.mem_cons_self _ _)) hpf'
          rcases hbeat x (List.mem_cons_self _ _) with h2 | h2
          · exact Or.inr (h2 ▸ hxy)
          · exact Or.inr (htrans _ _ _ h2 hxy)
        · exact hbeat y hy'

/-- C8.  Unregistering an active registry entry whose id (for commands) or
binding key (for keybindings) has a non-empty shadow stack promotes the
best-ranked shadow entry (by precedence rank, then priority, then earliest
sequence number) to active, and emits exactly one `RegistryEvent` — a
`kRejected` event for the removed entry — with no "Applied" event for the
promoted entry.  Sequence numbers are pairwise distinct, as the registry's
monotonic counter guarantees. -/
theorem unregister_promotes_best_with_single_rejected_event :
    (∀ (reg : RegState) (h : RegistrationHandle) (entry : CommandEntry)
        (l : List CommandEntry),
      h.resource = .kCommand → h.token ≠ 0 →
      alook h.id reg.commands = some entry → entry.token = h.token →
      alook h.id reg.commandShadow = some l → l ≠ [] →
      l.Pairwise (fun a b => a.sequence ≠ b.sequence) →
      (unregisterReg reg h).1 = true ∧
      (unregisterReg reg h).2.1 =
        [{ resource := .kCommand, id := h.id, status := .kRejected }] ∧
      ∃ best, alook h.id (unregisterReg reg h).2.2.commands = some best ∧
        IsBestRankedCommand best l) ∧
    (∀ (reg : RegState) (h : RegistrationHandle) (entry : KeybindingEntry)
        (l : List KeybindingEntry),
      h.resource = .kKeybinding → h.token ≠ 0 →
      alook h.id reg.keybindingsById = some entry → entry.token = h.token →
      alook entry.bindingKey reg.keybindingShadow = some l → l ≠ [] →
      l.Pairwise (fun a b => a.sequence ≠ b.sequence) →
      (unregisterReg reg h).1 = true ∧
      (unregisterReg reg h).2.1 =
        [{ resource := .kKeybinding, id := h.id, status := .kRejected }] ∧
      ∃ best,
        alook best.descriptor.id (unregisterReg reg h).2.2.keybindingsById =
          some best ∧
        alook entry.bindingKey (unregisterReg reg h).2.2.keybindingActiveKeyToId =
          some best.descriptor.id ∧
        IsBestRankedKeybinding best l) := by
  constructor
  · intro reg h entry l hres htok hact htokeq hshadow hnil hpw
    obtain ⟨x, xs, rfl⟩ := List.exists_cons_of_ne_nil hnil
    have hval : h.isValidHandle = true := by
      simp [RegistrationHandle.isValidHandle, htok]
    unfold unregisterReg
    rw [hres, hact, hval]
    simp only [Bool.true_eq_false, not_true_eq_false, if_neg, not_false_iff,
      if_pos htokeq, ite_false, ite_true]
    unfold promoteCommandShadow
    dsimp only
    rw [hshadow]
    refine ⟨trivial, trivial, (bestOf preferCommandEntry x xs).2, alook_aset _ _ _, ?_⟩
    exact bestScan_spec preferCommandEntry (fun e => e.sequence)
      preferCommandEntry_trans preferCommandEntry_flip xs x 1 0 hpw
  · intro reg h entry l hres htok hact htokeq hshadow hnil hpw
    obtain ⟨x, xs, rfl⟩ := List.exists_cons_of_ne_nil hnil
    have hval : h.isValidHandle = true := by
      simp [RegistrationHandle.isValidHandle, htok]
    unfold unregisterReg
    rw [hres, hact, hval]
    simp only [Bool.true_eq_false, not_true_eq_false, if_neg, not_false_iff,
      if_pos htokeq, ite_false, ite_true]
    unfold promoteKeybindingShadow
    dsimp only
    rw [hshadow]
    refine ⟨trivial, trivial, (bestOf preferKeybindingEntry x xs).2,
      alook_aset _ _ _, alook_aset _ _ _, ?_⟩
    exact bestScan_spec preferKeybindingEntry (fun e => e.sequence)
      preferKeybindingEntry_trans preferKeybindingEntry_flip xs x 1 0 hpw

/-- C8 witness: the "save" command scenario (User active, Core shadowed)
and the (Normal, "q") keybinding scenario (User active, Core shadowed). -/
theorem unregister_promotes_best_witness :
    ((unregisterReg saveAfterUser.2.2 saveAfterUser.1.handle).1 = true ∧
     (unregisterReg saveAfterUser.2.2 saveAfterUser.1.handle).2.1 =
       [{ resource := .kCommand, id := saveAfterUser.1.handle.id,
          status := .kRejected }] ∧
     ∃ best, alook saveAfterUser.1.handle.id
         (unregisterReg saveAfterUser.2.2 saveAfterUser.1.handle).2.2.commands =
           some best ∧
       IsBestRankedCommand best
         ((alook saveAfterUser.1.handle.id saveAfterUser.2.2.commandShadow).getD [])) ∧
    ((unregisterReg qAfterUser.2.2 qAfterUser.1.handle).1 = true ∧
     (unregisterReg qAfterUser.2.2 qAfterUser.1.handle).2.1 =
       [{ resource := .kKeybinding, id := qAfterUser.1.handle.id,
          status := .kRejected }] ∧
     ∃ best,
       alook best.descriptor.id
         (unregisterReg qAfterUser.2.2 qAfterUser.1.handle).2.2.keybindingsById =
           some best ∧
       alook ((alook qAfterUser.1.handle.id qAfterUser.2.2.keybindingsById).getD
           {}).bindingKey
         (unregisterReg qAfterUser.2.2 qAfterUser.1.handle).2.2.keybindingActiveKeyToId =
           some best.descriptor.id ∧
       IsBestRankedKeybinding best
         ((alook ((alook qAfterUser.1.handle.id
             qAfterUser.2.2.keybindingsById).getD {}).bindingKey
           qAfterUser.2.2.keybindingShadow).getD [])) :=
  ⟨unregister_promotes_best_with_single_rejected_event.1 saveAfterUser.2.2
      saveAfterUser.1.handle
      ((alook saveAfterUser.1.handle.id saveAfterUser.2.2.commands).getD {})
      ((alook saveAfterUser.1.handle.id saveAfterUser.2.2.commandShadow).getD [])
      (by decide) (by decide) (by decide) (by decide) (by decide) (by decide)
      (by decide),
   unregister_promotes_best_with_single_rejected_event.2 qAfterUser.2.2
      qAfterUser.1.handle
      ((alook qAfterUser.1.handle.id qAfterUser.2.2.keybindingsById).getD {})
      ((alook ((alook qAfterUser.1.handle.id
          qAfterUser.2.2.keybindingsById).getD {}).bindingKey
        qAfterUser.2.2.keybindingShadow).getD [])
      (by decide) (by decide) (by decide) (by decide) (by decide) (by decide)
      (by decide)⟩

/-- C10.  A registration handle with a nonzero token that matches neither
the active entry for its id nor any entry in any shadow stack is rejected
by `Unregister`: it returns false, emits no subscriber events, and leaves
the whole registry storage and the version counter unchanged. -/
theorem unregister_unmatched_token_is_noop (reg : RegState)
    (h : RegistrationHandle) (htok : h.token ≠ 0)
    (hA : ∀ p ∈ reg.commands, p.1 = h.id → p.2.token ≠ h.token)
    (hB : ∀ p ∈ reg.commandShadow, ∀ e ∈ p.2, e.token ≠ h.token)
    (hC : ∀ p ∈ reg.keybindingsById, p.1 = h.id → p.2.token ≠ h.token)
    (hD : ∀ p ∈ reg.keybindingShadow, ∀ e ∈ p.2, e.token ≠ h.token) :
    unregisterReg reg h = (false, [], reg) := by
  have hval : h.isValidHandle = true := by
    simp [RegistrationHandle.isValidHandle, htok]
  have hShadowCmd : unregisterCommandShadow reg h = (false, [], reg) := by
    unfold unregisterCommandShadow
    cases hs : alook h.id reg.commandShadow with
    | none => rfl
    | some list =>
      have hall : list.filter (fun e => e.token ≠ h.token) = list := by
        rw [List.filter_eq_self]
        intro e he
        simpa using hB (h.id, list) (alook_mem _ _ _ hs) e he
      dsimp only
      rw [hall]
      simp
  have hShadowKb : unregisterKeybindingShadow reg h = (false, [], reg) := by
    unfold unregisterKeybindingShadow
    cases ht : alook h.token reg.keybindingTokenToKey with
    | none => rfl
    | some key =>
      dsimp only
      cases hs : alook key reg.keybindingShadow with
      | none => rfl
      | some list =>
        have hall : list.filter (fun e => e.token ≠ h.token) = list := by
          rw [List.filter_eq_self]
          intro e he
          simpa using hD (key, list) (alook_mem _ _ _ hs) e he
        dsimp only
        rw [hall]
        simp
  unfold unregisterReg
  rw [hval]
  simp only [Bool.true_eq_false, not_true_eq_false, if_neg, not_false_iff,
    ite_false, ite_true]
  cases hres : h.resource with
  | kCommand =>
    cases hact : alook h.id reg.commands with
    | none => exact hShadowCmd
    | some entry =>
      have hne : ¬ entry.token = h.token :=
        hA (h.id, entry) (alook_mem _ _ _ hact) rfl
      dsimp only
      rw [if_neg hne]
      exact hShadowCmd
  | kKeybinding =>
    cases hact : alook h.id reg.keybindingsById with
    | none => exact hShadowKb
    | some entry =>
      have hne : ¬ entry.token = h.token :=
        hC (h.id, entry) (alook_mem _ _ _ hact) rfl
      dsimp only
      rw [if_neg hne]
      exact hShadowKb
  | kTheme => rfl
  | kFiletype => rfl
  | kPlugin => rfl
  | kOption => rfl

/-- C10 witness: a handle for id "save" with unmatched token 99 against the
two-registration "save" registry. -/
theorem unregister_unmatched_token_is_noop_witness :
    unregisterReg saveAfterUser.2.2
      { resource := .kCommand, id := "save", token := 99 } =
      (false, [], saveAfterUser.2.2) :=
  unregister_unmatched_token_is_noop saveAfterUser.2.2
    { resource := .kCommand, id := "save", token := 99 }
    (by decide) (by decide) (by decide) (by decide) (by decide)

/-- C9 witness. -/
theorem buffer_never_empty_witness :
    ((bufInsertChar { lines := ["ab".toList] } 0 1 'z').2).lines ≠ [] ∧
    ((bufDeleteChar { lines := ["ab".toList] } 0 1).2).lines ≠ [] ∧
    ((bufInsertLine { lines := ["ab".toList] } 0 "x".toList).2).lines ≠ [] ∧
    ((bufDeleteLine { lines := ["ab".toList] } 0).2).lines ≠ [] ∧
    (runNormalKeys builtinInterp (initCtrl ["abc".toList]) ['d', 'd']).ed.buffer.lines
      = [[]] :=
  ⟨buffer_never_empty.1 { lines := ["ab".toList] } 0 1 'z' (by decide),
   buffer_never_empty.2.1 { lines := ["ab".toList] } 0 1 (by decide),
   buffer_never_empty.2.2.1 { lines := ["ab".toList] } 0 "x".toList (by decide),
   buffer_never_empty.2.2.2.1 { lines := ["ab".toList] } 0 (by decide),
   buffer_never_empty.2.2.2.2 "abc".toList⟩

end Microvi
